import Mathlib

/-!
Verification development for the Black-Scholes pricing and implied-volatility
module (`black_scholes.py`).

The numerical code operates on IEEE floats; we embed it over the real numbers
`ℝ`, with `numpy.log`, `numpy.sqrt`, `numpy.exp` embedded as `Real.log`,
`Real.sqrt`, `Real.exp` and `scipy.stats.norm.cdf` embedded as the standard
normal cumulative distribution function `normCdf` defined from the Gaussian
density.  Python exceptions are embedded as `Except.error` values carrying the
data that the raised exception carries; `numpy.nan` results are embedded as
`none`.
-/

open MeasureTheory intervalIntegral Real

/-- The standard normal probability density `(2π)^(-1/2) · exp (-x²/2)`. -/
noncomputable def gaussPDF (x : ℝ) : ℝ :=
  (Real.sqrt (2 * Real.pi))⁻¹ * Real.exp (-(x ^ 2) / 2)

/-- The standard normal cumulative distribution function, the embedding of
`scipy.stats.norm.cdf`: `Φ(x) = 1/2 + ∫ t in 0..x, gaussPDF t`. -/
noncomputable def normCdf (x : ℝ) : ℝ :=
  1 / 2 + ∫ t in (0:ℝ)..x, gaussPDF t

theorem sqrt_two_pi_pos : 0 < Real.sqrt (2 * Real.pi) :=
  Real.sqrt_pos.mpr (by positivity)

theorem gaussPDF_pos (x : ℝ) : 0 < gaussPDF x :=
  mul_pos (inv_pos.mpr sqrt_two_pi_pos) (Real.exp_pos _)

theorem gaussPDF_continuous : Continuous gaussPDF := by
  unfold gaussPDF
  fun_prop

theorem gaussPDF_intervalIntegrable (a b : ℝ) :
    IntervalIntegrable gaussPDF volume a b :=
  gaussPDF_continuous.intervalIntegrable a b

theorem gaussPDF_even (x : ℝ) : gaussPDF (-x) = gaussPDF x := by
  simp [gaussPDF, neg_sq]

theorem gaussPDF_antitone {x y : ℝ} (hx : 0 ≤ x) (hxy : x ≤ y) :
    gaussPDF y ≤ gaussPDF x := by
  unfold gaussPDF
  have h2 : x ^ 2 ≤ y ^ 2 := by nlinarith
  have := Real.exp_le_exp.mpr (by linarith : -(y ^ 2) / 2 ≤ -(x ^ 2) / 2)
  exact mul_le_mul_of_nonneg_left this (le_of_lt (inv_pos.mpr sqrt_two_pi_pos))

theorem integrable_gaussPDF : Integrable gaussPDF := by
  have h : Integrable (fun x : ℝ => Real.exp (-(1/2) * x ^ 2)) :=
    integrable_exp_neg_mul_sq (by norm_num)
  have heq : gaussPDF =
      fun x : ℝ => (Real.sqrt (2 * Real.pi))⁻¹ * Real.exp (-(1/2) * x ^ 2) := by
    funext x
    unfold gaussPDF
    ring_nf
  rw [heq]
  exact h.const_mul _

theorem integral_gaussPDF_Ioi_zero : ∫ x in Set.Ioi (0:ℝ), gaussPDF x = 1 / 2 := by
  have h : ∫ x in Set.Ioi (0:ℝ), Real.exp (-(1/2) * x ^ 2)
      = Real.sqrt (Real.pi / (1/2)) / 2 := integral_gaussian_Ioi (1/2)
  have heq : ∀ x : ℝ, gaussPDF x
      = (Real.sqrt (2 * Real.pi))⁻¹ * Real.exp (-(1/2) * x ^ 2) := by
    intro x
    unfold gaussPDF
    ring_nf
  calc ∫ x in Set.Ioi (0:ℝ), gaussPDF x
      = ∫ x in Set.Ioi (0:ℝ), (Real.sqrt (2 * Real.pi))⁻¹ * Real.exp (-(1/2) * x ^ 2) := by
        exact setIntegral_congr_fun measurableSet_Ioi (fun x _ => heq x)
    _ = (Real.sqrt (2 * Real.pi))⁻¹ * ∫ x in Set.Ioi (0:ℝ), Real.exp (-(1/2) * x ^ 2) := by
        exact integral_mul_left _ _
    _ = (Real.sqrt (2 * Real.pi))⁻¹ * (Real.sqrt (Real.pi / (1/2)) / 2) := by rw [h]
    _ = 1 / 2 := by
        have : Real.pi / (1/2) = 2 * Real.pi := by ring
        rw [this]
        field_simp

theorem normCdf_zero : normCdf 0 = 1 / 2 := by
  simp [normCdf]

theorem intervalIntegral_gaussPDF_neg (x : ℝ) :
    (∫ t in (0:ℝ)..(-x), gaussPDF t) = -∫ t in (0:ℝ)..x, gaussPDF t := by
  have h1 : (∫ t in (0:ℝ)..x, gaussPDF t) = ∫ t in (0:ℝ)..x, gaussPDF (-t) := by
    apply intervalIntegral.integral_congr
    intro t _
    exact (gaussPDF_even t).symm
  have h2 : (∫ t in (0:ℝ)..x, gaussPDF (-t)) = ∫ t in (-x)..(-(0:ℝ)), gaussPDF t :=
    intervalIntegral.integral_comp_neg gaussPDF
  rw [h1, h2, neg_zero]
  exact intervalIntegral.integral_symm (-x) 0

theorem normCdf_neg (x : ℝ) : normCdf (-x) = 1 - normCdf x := by
  unfold normCdf
  rw [intervalIntegral_gaussPDF_neg]
  ring

theorem normCdf_sub_eq_integral (a b : ℝ) :
    normCdf b - normCdf a = ∫ t in a..b, gaussPDF t := by
  unfold normCdf
  have h := intervalIntegral.integral_add_adjacent_intervals
    (gaussPDF_intervalIntegrable 0 a) (gaussPDF_intervalIntegrable a b)
  linarith

theorem normCdf_strictMono : StrictMono normCdf := by
  intro a b hab
  have h : 0 < ∫ t in a..b, gaussPDF t :=
    intervalIntegral.intervalIntegral_pos_of_pos (gaussPDF_intervalIntegrable a b)
      gaussPDF_pos hab
  have := normCdf_sub_eq_integral a b
  linarith

theorem intervalIntegral_gaussPDF_lt_half {x : ℝ} (hx : 0 < x) :
    (∫ t in (0:ℝ)..x, gaussPDF t) < 1 / 2 := by
  have hsplit : Set.Ioi (0:ℝ) = Set.Ioc 0 x ∪ Set.Ioi x := by
    rw [Set.Ioc_union_Ioi_eq_Ioi hx.le]
  have hdisj : Disjoint (Set.Ioc (0:ℝ) x) (Set.Ioi x) :=
    Set.Ioc_disjoint_Ioi le_rfl
  have hu : (∫ t in Set.Ioi (0:ℝ), gaussPDF t)
      = (∫ t in Set.Ioc (0:ℝ) x, gaussPDF t) + ∫ t in Set.Ioi x, gaussPDF t := by
    rw [hsplit]
    exact setIntegral_union hdisj measurableSet_Ioi
      integrable_gaussPDF.integrableOn integrable_gaussPDF.integrableOn
  have htail : 0 < ∫ t in Set.Ioi x, gaussPDF t := by
    rw [setIntegral_pos_iff_support_of_nonneg_ae]
    · have : (Function.support gaussPDF) ∩ Set.Ioi x = Set.Ioi x := by
        have hs : Function.support gaussPDF = Set.univ := by
          ext t
          simp [Function.support, (gaussPDF_pos t).ne']
        rw [hs, Set.univ_inter]
      rw [this]
      simp [Real.volume_Ioi]
    · exact Filter.Eventually.of_forall fun t => (gaussPDF_pos t).le
    · exact integrable_gaussPDF.integrableOn
  have hIoc : (∫ t in (0:ℝ)..x, gaussPDF t) = ∫ t in Set.Ioc (0:ℝ) x, gaussPDF t :=
    intervalIntegral.integral_of_le hx.le
  rw [hIoc]
  have := integral_gaussPDF_Ioi_zero
  linarith

theorem normCdf_lt_one (x : ℝ) : normCdf x < 1 := by
  rcases le_or_lt x 0 with hx | hx
  · have hnn : 0 ≤ ∫ t in x..(0:ℝ), gaussPDF t :=
      intervalIntegral.integral_nonneg hx (fun u _ => (gaussPDF_pos u).le)
    have hsym : (∫ t in (0:ℝ)..x, gaussPDF t) = -∫ t in x..(0:ℝ), gaussPDF t :=
      intervalIntegral.integral_symm x 0
    unfold normCdf
    rw [hsym]
    linarith
  · have := intervalIntegral_gaussPDF_lt_half hx
    unfold normCdf
    linarith

theorem normCdf_pos (x : ℝ) : 0 < normCdf x := by
  have h := normCdf_lt_one (-x)
  rw [normCdf_neg] at h
  linarith

theorem normCdf_nonneg (x : ℝ) : 0 ≤ normCdf x := (normCdf_pos x).le

theorem normCdf_le_one (x : ℝ) : normCdf x ≤ 1 := (normCdf_lt_one x).le

theorem normCdf_hasDerivAt (x : ℝ) : HasDerivAt normCdf (gaussPDF x) x := by
  have h : HasStrictDerivAt (fun u => ∫ t in (0:ℝ)..u, gaussPDF t) (gaussPDF x) x :=
    gaussPDF_continuous.integral_hasStrictDerivAt 0 x
  have h2 := h.hasDerivAt.const_add (1/2 : ℝ)
  exact h2

theorem normCdf_symm_diff (a : ℝ) :
    normCdf a - normCdf (-a) = 2 * ∫ t in (0:ℝ)..a, gaussPDF t := by
  rw [normCdf_neg]
  unfold normCdf
  ring

theorem intervalIntegral_gaussPDF_lower {a : ℝ} (ha : 0 ≤ a) :
    a * gaussPDF a ≤ ∫ t in (0:ℝ)..a, gaussPDF t := by
  have h : (∫ _t in (0:ℝ)..a, gaussPDF a) ≤ ∫ t in (0:ℝ)..a, gaussPDF t := by
    apply intervalIntegral.integral_mono_on ha
      (intervalIntegrable_const) (gaussPDF_intervalIntegrable 0 a)
    intro t ht
    exact gaussPDF_antitone ht.1 ht.2
  rw [intervalIntegral.integral_const] at h
  simpa using h

theorem intervalIntegral_gaussPDF_upper {a : ℝ} (ha : 0 ≤ a) :
    (∫ t in (0:ℝ)..a, gaussPDF t) ≤ a * gaussPDF 0 := by
  have h : (∫ t in (0:ℝ)..a, gaussPDF t) ≤ ∫ _t in (0:ℝ)..a, gaussPDF 0 := by
    apply intervalIntegral.integral_mono_on ha
      (gaussPDF_intervalIntegrable 0 a) (intervalIntegrable_const)
    intro t ht
    exact gaussPDF_antitone le_rfl ht.1
  rw [intervalIntegral.integral_const] at h
  simpa using h

theorem gaussPDF_zero_le_one : gaussPDF 0 ≤ 1 := by
  unfold gaussPDF
  rw [show -((0:ℝ) ^ 2) / 2 = 0 by norm_num, Real.exp_zero, mul_one]
  rw [inv_le_one_iff₀]
  right
  rw [show (1:ℝ) = Real.sqrt 1 by rw [Real.sqrt_one]]
  apply Real.sqrt_le_sqrt
  nlinarith [Real.pi_gt_three]

/-- Embedding of `bs_call(S0, K, sigma, t, r)` from `black_scholes.py`:
`d1 = (np.log(S0/K) + (r + 0.5*sigma**2)*t)/(sigma*np.sqrt(t))`,
`d2 = d1 - sigma*np.sqrt(t)`,
`call_value = S0*norm.cdf(d1) - K*np.exp(-r*t)*norm.cdf(d2)`.
Note the source has no dividend-yield parameter. -/
noncomputable def bs_call (S0 K sigma t r : ℝ) : ℝ :=
  S0 * normCdf ((Real.log (S0 / K) + (r + 0.5 * sigma ^ 2) * t) / (sigma * Real.sqrt t))
    - K * Real.exp (-r * t) *
      normCdf ((Real.log (S0 / K) + (r + 0.5 * sigma ^ 2) * t) / (sigma * Real.sqrt t)
        - sigma * Real.sqrt t)

/-- Embedding of `bs_put(S0, K, sigma, t, r)` from `black_scholes.py`:
`put_value = -S0*norm.cdf(-d1) + K*np.exp(-r*t)*norm.cdf(-d2)`. -/
noncomputable def bs_put (S0 K sigma t r : ℝ) : ℝ :=
  -S0 * normCdf (-((Real.log (S0 / K) + (r + 0.5 * sigma ^ 2) * t) / (sigma * Real.sqrt t)))
    + K * Real.exp (-r * t) *
      normCdf (-((Real.log (S0 / K) + (r + 0.5 * sigma ^ 2) * t) / (sigma * Real.sqrt t)
        - sigma * Real.sqrt t))

def callString : String := "call"

def putString : String := "put"

def invalidTypeMsg : String := "Invalid option type."

/-- Embedding of `bs_price(S0, K, sigma, t, r, option_type)`: raises
`ValueError("Invalid option type.")` unless `option_type` is `"call"` or
`"put"`; otherwise returns the corresponding closed-form value.  The raised
`ValueError` is embedded as `Except.error` carrying the message. -/
noncomputable def bs_price (S0 K sigma t r : ℝ) (option_type : String) :
    Except String ℝ :=
  if option_type ≠ callString ∧ option_type ≠ putString then
    Except.error invalidTypeMsg
  else if option_type = callString then Except.ok (bs_call S0 K sigma t r)
  else Except.ok (bs_put S0 K sigma t r)

/-- The call-price formula as written in the specification (§4.1), with a
dividend yield `q`:
`d1 = (ln(S/K) + (r − q + 0.5·σ²)·t)/(σ·√t)`, `d2 = d1 − σ·√t`,
`call = S·e^(−q·t)·Φ(d1) − K·e^(−r·t)·Φ(d2)`.  This definition follows the
spec's words and is used only to compare the source's `bs_call` against the
specified formula. -/
noncomputable def bs_call_specQ (S0 K sigma t r q : ℝ) : ℝ :=
  S0 * Real.exp (-q * t) *
    normCdf ((Real.log (S0 / K) + (r - q + 0.5 * sigma ^ 2) * t) / (sigma * Real.sqrt t))
    - K * Real.exp (-r * t) *
      normCdf ((Real.log (S0 / K) + (r - q + 0.5 * sigma ^ 2) * t) / (sigma * Real.sqrt t)
        - sigma * Real.sqrt t)

theorem bs_call_sub_bs_put (S0 K sigma t r : ℝ) :
    bs_call S0 K sigma t r - bs_put S0 K sigma t r = S0 - K * Real.exp (-r * t) := by
  unfold bs_call bs_put
  rw [normCdf_neg, normCdf_neg]
  ring

theorem bs_call_lt_spot (S0 K sigma t r : ℝ) (hS : 0 < S0) (hK : 0 < K) :
    bs_call S0 K sigma t r < S0 := by
  unfold bs_call
  have h1 := normCdf_lt_one
    ((Real.log (S0 / K) + (r + 0.5 * sigma ^ 2) * t) / (sigma * Real.sqrt t))
  have h2 := normCdf_pos
    ((Real.log (S0 / K) + (r + 0.5 * sigma ^ 2) * t) / (sigma * Real.sqrt t)
      - sigma * Real.sqrt t)
  have hKe : 0 < K * Real.exp (-r * t) := mul_pos hK (Real.exp_pos _)
  nlinarith [mul_pos hKe h2]

theorem atm_call_eq (sigma : ℝ) (hs : sigma ≠ 0) :
    bs_call 1 1 sigma 1 0 = 2 * ∫ u in (0:ℝ)..(sigma / 2), gaussPDF u := by
  unfold bs_call
  have hlog : Real.log ((1:ℝ) / 1) = 0 := by norm_num
  have hsq : Real.sqrt (1:ℝ) = 1 := Real.sqrt_one
  rw [hlog, hsq]
  have hd1 : ((0:ℝ) + ((0:ℝ) + 0.5 * sigma ^ 2) * 1) / (sigma * 1) = sigma / 2 := by
    field_simp
    ring
  rw [hd1]
  have hd2 : sigma / 2 - sigma * 1 = -(sigma / 2) := by ring
  rw [hd2]
  rw [show -(0:ℝ) * 1 = 0 by ring, Real.exp_zero]
  have := normCdf_symm_diff (sigma / 2)
  linarith

theorem gauss_rect_lower {a b : ℝ} (ha : 0 ≤ a) (hab : a ≤ b) :
    (b - a) * gaussPDF b ≤ ∫ t in a..b, gaussPDF t := by
  have h : (∫ _t in a..b, gaussPDF b) ≤ ∫ t in a..b, gaussPDF t := by
    apply intervalIntegral.integral_mono_on hab
      (intervalIntegrable_const) (gaussPDF_intervalIntegrable a b)
    intro t ht
    exact gaussPDF_antitone (ha.trans ht.1) ht.2
  rw [intervalIntegral.integral_const] at h
  simpa using h

theorem sqrt_two_pi_lt : Real.sqrt (2 * Real.pi) < 2.51 := by
  have hpi := Real.pi_lt_d2
  have h2 : 2 * Real.pi < 2.51 ^ 2 := by nlinarith
  exact (Real.sqrt_lt' (by norm_num)).mpr h2

theorem gaussPDF_at_ge (x : ℝ) : (100 / 251) * Real.exp (-(x ^ 2) / 2) ≤ gaussPDF x := by
  unfold gaussPDF
  have h1 : (100 / 251 : ℝ) ≤ (Real.sqrt (2 * Real.pi))⁻¹ := by
    rw [le_inv_comm₀ (by norm_num) sqrt_two_pi_pos]
    calc Real.sqrt (2 * Real.pi) ≤ 2.51 := sqrt_two_pi_lt.le
      _ ≤ (100 / 251 : ℝ)⁻¹ := by norm_num
  exact mul_le_mul_of_nonneg_right h1 (Real.exp_pos _).le

theorem int01_gaussPDF_gt : 1 / 4 < ∫ t in (0:ℝ)..1, gaussPDF t := by
  have hsplit := intervalIntegral.integral_add_adjacent_intervals
    (gaussPDF_intervalIntegrable 0 (1/2)) (gaussPDF_intervalIntegrable (1/2) 1)
  have h1 : ((1:ℝ)/2 - 0) * gaussPDF (1/2) ≤ ∫ t in (0:ℝ)..(1/2), gaussPDF t :=
    gauss_rect_lower le_rfl (by norm_num)
  have h2 : ((1:ℝ) - 1/2) * gaussPDF 1 ≤ ∫ t in ((1:ℝ)/2)..1, gaussPDF t :=
    gauss_rect_lower (by norm_num) (by norm_num)
  have he1 : Real.exp (-((1:ℝ)/2) ^ 2 / 2) ≥ 7/8 := by
    have := Real.add_one_le_exp (-((1:ℝ)/2) ^ 2 / 2)
    have heq : -((1:ℝ)/2) ^ 2 / 2 = -(1/8) := by norm_num
    rw [heq] at this ⊢
    linarith
  have he2 : Real.exp (-(1:ℝ) ^ 2 / 2) ≥ 1/2 := by
    have := Real.add_one_le_exp (-(1:ℝ) ^ 2 / 2)
    have heq : -(1:ℝ) ^ 2 / 2 = -(1/2) := by norm_num
    rw [heq] at this ⊢
    linarith
  have hg1 := gaussPDF_at_ge (1/2)
  have hg2 := gaussPDF_at_ge 1
  nlinarith [Real.exp_pos (-((1:ℝ)/2) ^ 2 / 2), Real.exp_pos (-(1:ℝ) ^ 2 / 2)]

theorem int_to_25_gaussPDF_gt : 1 / 4 < ∫ t in (0:ℝ)..25, gaussPDF t := by
  have hsplit := intervalIntegral.integral_add_adjacent_intervals
    (gaussPDF_intervalIntegrable 0 1) (gaussPDF_intervalIntegrable 1 25)
  have hnn : 0 ≤ ∫ t in (1:ℝ)..25, gaussPDF t :=
    intervalIntegral.integral_nonneg (by norm_num) (fun u _ => (gaussPDF_pos u).le)
  have := int01_gaussPDF_gt
  linarith

theorem bs_call_50_gt_half : 1 / 2 < bs_call 1 1 50 1 0 := by
  rw [atm_call_eq 50 (by norm_num)]
  have h : (50:ℝ) / 2 = 25 := by norm_num
  rw [h]
  have := int_to_25_gaussPDF_gt
  linarith

theorem bs_call_tiny_lt_half : bs_call 1 1 (1 / 10 ^ 12) 1 0 < 1 / 2 := by
  rw [atm_call_eq (1 / 10 ^ 12) (by norm_num)]
  have ha : (0:ℝ) ≤ 1 / 10 ^ 12 / 2 := by norm_num
  have hup := intervalIntegral_gaussPDF_upper ha
  have hg0 := gaussPDF_zero_le_one
  have hgpos := gaussPDF_pos 0
  nlinarith

theorem exp_neg_one_lt_half : Real.exp (-1) < 1 / 2 := by
  have h := Real.exp_one_gt_d9
  rw [Real.exp_neg]
  rw [inv_lt_comm₀ (by positivity) (by norm_num)]
  linarith

theorem specQ_zero_val : bs_call_specQ 1 1 2 1 0 0 = normCdf 1 - normCdf (-1) := by
  unfold bs_call_specQ
  have hlog : Real.log ((1:ℝ) / 1) = 0 := by norm_num
  rw [hlog, Real.sqrt_one]
  norm_num

theorem specQ_one_val :
    bs_call_specQ 1 1 2 1 0 1
      = Real.exp (-1) * normCdf (1/2) - normCdf (-(3/2)) := by
  unfold bs_call_specQ
  have hlog : Real.log ((1:ℝ) / 1) = 0 := by norm_num
  rw [hlog, Real.sqrt_one]
  norm_num

theorem specQ_zero_gt_half : 1 / 2 < bs_call_specQ 1 1 2 1 0 0 := by
  rw [specQ_zero_val]
  have := normCdf_symm_diff 1
  have := int01_gaussPDF_gt
  linarith

theorem specQ_one_lt_half : bs_call_specQ 1 1 2 1 0 1 < 1 / 2 := by
  rw [specQ_one_val]
  have h1 := normCdf_lt_one (1/2 : ℝ)
  have h2 := normCdf_pos (-(3/2) : ℝ)
  have h3 := exp_neg_one_lt_half
  have h4 := Real.exp_pos (-1 : ℝ)
  have h5 := normCdf_pos (1/2 : ℝ)
  nlinarith

theorem bs_call_param (S0 K t r : ℝ) (ht : 0 < t) {sigma : ℝ} (hs : sigma ≠ 0) :
    bs_call S0 K sigma t r
      = S0 * normCdf ((Real.log (S0 / K) + r * t) / Real.sqrt t / sigma
            + Real.sqrt t / 2 * sigma)
        - K * Real.exp (-r * t) *
          normCdf ((Real.log (S0 / K) + r * t) / Real.sqrt t / sigma
            - Real.sqrt t / 2 * sigma) := by
  have hsq : Real.sqrt t ≠ 0 := (Real.sqrt_pos.mpr ht).ne'
  have hsqt : Real.sqrt t * Real.sqrt t = t := Real.mul_self_sqrt ht.le
  have h1 : (Real.log (S0 / K) + (r + 0.5 * sigma ^ 2) * t) / (sigma * Real.sqrt t)
      = (Real.log (S0 / K) + r * t) / Real.sqrt t / sigma + Real.sqrt t / 2 * sigma := by
    set s := Real.sqrt t with hsdef
    have hts : t = s * s := hsqt.symm
    rw [hts]
    field_simp
    ring
  have h2 : (Real.log (S0 / K) + r * t) / Real.sqrt t / sigma + Real.sqrt t / 2 * sigma
      - sigma * Real.sqrt t
      = (Real.log (S0 / K) + r * t) / Real.sqrt t / sigma - Real.sqrt t / 2 * sigma := by
    ring
  unfold bs_call
  rw [h1, h2]

theorem phi_comb_hasDerivAt (S0 c A B : ℝ) {sigma : ℝ} (hs : sigma ≠ 0) :
    HasDerivAt (fun x => S0 * normCdf (A / x + B * x) - c * normCdf (A / x - B * x))
      (S0 * (gaussPDF (A / sigma + B * sigma) * (-A / sigma ^ 2 + B))
        - c * (gaussPDF (A / sigma - B * sigma) * (-A / sigma ^ 2 - B))) sigma := by
  have hinv : HasDerivAt (fun x : ℝ => A / x) (-A / sigma ^ 2) sigma := by
    have h := (hasDerivAt_inv hs).const_mul A
    have heq : (fun x : ℝ => A * x⁻¹) = fun x : ℝ => A / x := by
      funext x
      rw [div_eq_mul_inv]
    rw [heq] at h
    have hval : A * -(sigma ^ 2)⁻¹ = -A / sigma ^ 2 := by
      field_simp
    rwa [hval] at h
  have hlin : HasDerivAt (fun x : ℝ => B * x) B sigma := by
    simpa using (hasDerivAt_id sigma).const_mul B
  have hu : HasDerivAt (fun x : ℝ => A / x + B * x) (-A / sigma ^ 2 + B) sigma :=
    hinv.add hlin
  have hv : HasDerivAt (fun x : ℝ => A / x - B * x) (-A / sigma ^ 2 - B) sigma :=
    hinv.sub hlin
  have hcu : HasDerivAt (fun x => normCdf (A / x + B * x))
      (gaussPDF (A / sigma + B * sigma) * (-A / sigma ^ 2 + B)) sigma :=
    (normCdf_hasDerivAt (A / sigma + B * sigma)).comp sigma hu
  have hcv : HasDerivAt (fun x => normCdf (A / x - B * x))
      (gaussPDF (A / sigma - B * sigma) * (-A / sigma ^ 2 - B)) sigma :=
    (normCdf_hasDerivAt (A / sigma - B * sigma)).comp sigma hv
  exact (hcu.const_mul S0).sub (hcv.const_mul c)

theorem bs_vega_identity (S0 K t r : ℝ) (hS : 0 < S0) (hK : 0 < K) (ht : 0 < t)
    {sigma : ℝ} (hs : sigma ≠ 0) :
    S0 * gaussPDF ((Real.log (S0 / K) + r * t) / Real.sqrt t / sigma
        + Real.sqrt t / 2 * sigma)
      = K * Real.exp (-r * t) *
        gaussPDF ((Real.log (S0 / K) + r * t) / Real.sqrt t / sigma
          - Real.sqrt t / 2 * sigma) := by
  have hsq : Real.sqrt t ≠ 0 := (Real.sqrt_pos.mpr ht).ne'
  have hsqt : Real.sqrt t * Real.sqrt t = t := Real.mul_self_sqrt ht.le
  set L := Real.log (S0 / K) with hL
  set u := (L + r * t) / Real.sqrt t / sigma + Real.sqrt t / 2 * sigma with hu
  set v := (L + r * t) / Real.sqrt t / sigma - Real.sqrt t / 2 * sigma with hv
  have husq : u ^ 2 = v ^ 2 + 2 * (L + r * t) := by
    rw [hu, hv]
    field_simp
    ring_nf
  have hexp : Real.exp (-(u ^ 2) / 2)
      = Real.exp (-(v ^ 2) / 2) * Real.exp (-(L + r * t)) := by
    rw [← Real.exp_add]
    congr 1
    rw [husq]
    ring
  have hLval : Real.exp (-L) = K / S0 := by
    rw [Real.exp_neg, hL, Real.exp_log (div_pos hS hK)]
    rw [inv_div]
  unfold gaussPDF
  rw [hexp]
  have hsplit : Real.exp (-(L + r * t)) = Real.exp (-L) * Real.exp (-(r * t)) := by
    rw [← Real.exp_add]
    congr 1
    ring
  rw [hsplit, hLval]
  have hrt : Real.exp (-r * t) = Real.exp (-(r * t)) := by
    congr 1
    ring
  rw [hrt]
  field_simp
  ring

theorem bs_call_hasDerivAt (S0 K t r : ℝ) (hS : 0 < S0) (hK : 0 < K) (ht : 0 < t)
    {sigma : ℝ} (hs : 0 < sigma) :
    HasDerivAt (fun x => bs_call S0 K x t r)
      (S0 * gaussPDF ((Real.log (S0 / K) + r * t) / Real.sqrt t / sigma
          + Real.sqrt t / 2 * sigma) * Real.sqrt t) sigma := by
  have hd := phi_comb_hasDerivAt S0 (K * Real.exp (-r * t))
    ((Real.log (S0 / K) + r * t) / Real.sqrt t) (Real.sqrt t / 2) hs.ne'
  have hid := bs_vega_identity S0 K t r hS hK ht hs.ne'
  have hval : S0 * (gaussPDF ((Real.log (S0 / K) + r * t) / Real.sqrt t / sigma
          + Real.sqrt t / 2 * sigma)
            * (-((Real.log (S0 / K) + r * t) / Real.sqrt t) / sigma ^ 2 + Real.sqrt t / 2))
      - K * Real.exp (-r * t) *
          (gaussPDF ((Real.log (S0 / K) + r * t) / Real.sqrt t / sigma
            - Real.sqrt t / 2 * sigma)
            * (-((Real.log (S0 / K) + r * t) / Real.sqrt t) / sigma ^ 2 - Real.sqrt t / 2))
      = S0 * gaussPDF ((Real.log (S0 / K) + r * t) / Real.sqrt t / sigma
          + Real.sqrt t / 2 * sigma) * Real.sqrt t := by
    linear_combination (-((Real.log (S0 / K) + r * t) / Real.sqrt t) / sigma ^ 2
      - Real.sqrt t / 2) * hid
  rw [hval] at hd
  apply hd.congr_of_eventuallyEq
  have hmem : Set.Ioi (0:ℝ) ∈ nhds sigma := isOpen_Ioi.mem_nhds hs
  filter_upwards [hmem] with x hx
  exact bs_call_param S0 K t r ht (ne_of_gt hx)

theorem bs_call_strictMonoOn (S0 K t r : ℝ) (hS : 0 < S0) (hK : 0 < K) (ht : 0 < t) :
    StrictMonoOn (fun sigma => bs_call S0 K sigma t r) (Set.Ioi 0) := by
  apply strictMonoOn_of_deriv_pos (convex_Ioi 0)
  · intro x hx
    exact (bs_call_hasDerivAt S0 K t r hS hK ht hx).continuousAt.continuousWithinAt
  · intro x hx
    rw [interior_Ioi] at hx
    rw [(bs_call_hasDerivAt S0 K t r hS hK ht hx).deriv]
    have h1 := gaussPDF_pos ((Real.log (S0 / K) + r * t) / Real.sqrt t / x
      + Real.sqrt t / 2 * x)
    have h2 := Real.sqrt_pos.mpr ht
    positivity

theorem bs_put_eq_call_sub (S0 K sigma t r : ℝ) :
    bs_put S0 K sigma t r = bs_call S0 K sigma t r - S0 + K * Real.exp (-r * t) := by
  have := bs_call_sub_bs_put S0 K sigma t r
  linarith

theorem bs_put_strictMonoOn (S0 K t r : ℝ) (hS : 0 < S0) (hK : 0 < K) (ht : 0 < t) :
    StrictMonoOn (fun sigma => bs_put S0 K sigma t r) (Set.Ioi 0) := by
  intro a ha b hb hab
  have h := bs_call_strictMonoOn S0 K t r hS hK ht ha hb hab
  simp only [bs_put_eq_call_sub]
  simpa using h

/-- Failure signals of `scipy.optimize.brentq`: `badBracket` embeds the
`ValueError` raised when `f(a)` and `f(b)` have the same sign, `notConverged`
embeds the error raised when `maxiter` iterations do not reach tolerance. -/
inductive BrentErr where
  | badBracket : BrentErr
  | notConverged : BrentErr
deriving DecidableEq

/-- Modelled from the spec: `scipy.optimize.brentq` is an external collaborator
(§4.2 step 5 describes it as a bracketed root-finder that always maintains a
bracket containing the root and stops once the bracket width is below
`abs_tol + rel_tol·|σ|` or the iteration budget is exhausted).  We model it by
the bisection core of that description: each step halves the bracket, keeping
the endpoint signs opposite; when the budget runs out before the tolerance is
met the `notConverged` error is signalled. -/
noncomputable def bisect (err : ℝ → ℝ) (xtol rtol : ℝ) :
    ℕ → ℝ → ℝ → Except BrentErr ℝ
  | fuel, a, b =>
    if b - a < xtol + rtol * |(a + b) / 2| then Except.ok ((a + b) / 2)
    else
      match fuel with
      | 0 => Except.error BrentErr.notConverged
      | fuel' + 1 =>
        if err a * err ((a + b) / 2) ≤ 0 then bisect err xtol rtol fuel' a ((a + b) / 2)
        else bisect err xtol rtol fuel' ((a + b) / 2) b

/-- Modelled from the spec: the entry point of `scipy.optimize.brentq`, which
first raises `ValueError` when `f(a)·f(b) > 0` (no sign change), and otherwise
runs the bracketed root-finding iteration. -/
noncomputable def brentq (err : ℝ → ℝ) (a b xtol rtol : ℝ) (maxiter : ℕ) :
    Except BrentErr ℝ :=
  if err a * err b > 0 then Except.error BrentErr.badBracket
  else bisect err xtol rtol maxiter a b

/-- One state of the bracket-expansion `while` loop of `iv_call_v2`
(`while f_lo * f_hi > 0 and vol_hi < max_hi: vol_hi *= 2.0; f_hi = _err(vol_hi)`),
with an explicit fuel parameter.  `none` means the fuel ran out while the loop
condition still held (the Python loop would still be running). -/
noncomputable def expandLoop (err : ℝ → ℝ) (f_lo max_hi : ℝ) :
    ℕ → ℝ → ℝ → Option (ℝ × ℝ)
  | 0, vol_hi, f_hi =>
    if f_lo * f_hi > 0 ∧ vol_hi < max_hi then none else some (vol_hi, f_hi)
  | fuel + 1, vol_hi, f_hi =>
    if f_lo * f_hi > 0 ∧ vol_hi < max_hi then
      expandLoop err f_lo max_hi fuel (vol_hi * 2) (err (vol_hi * 2))
    else some (vol_hi, f_hi)

/-- Fuel that suffices for the expansion loop whenever `0 < vol_hi`
(proved in `expandLoop_enough_fuel`). -/
noncomputable def expandFuel (vol_hi max_hi : ℝ) : ℕ :=
  Nat.ceil (max_hi / vol_hi) + 1

/-- Outcomes raised by `iv_call_v2`: `bracketFail f_lo lo f_hi hi` embeds the
`ValueError` raised with the message carrying `err(vol_lo)=f_lo`,
`err(vol_hi)=f_hi` after a failed bracket expansion; `brentBadBracket` and
`notConverged` embed the errors propagated from `brentq`; `expansionDiverged`
is a modelling artifact marking fuel exhaustion of the `while` loop (the states
in which the Python loop would not have exited yet). -/
inductive IVErr where
  | bracketFail : ℝ → ℝ → ℝ → ℝ → IVErr
  | brentBadBracket : IVErr
  | notConverged : IVErr
  | expansionDiverged : IVErr

/-- Embedding of `iv_call_v2(market_price, S0, K, t, r, q=0, vol_lo=1e-12,
vol_hi=50, max_hi=2000.0, xtol=1e-12, rtol=1e-12, maxiter=200)`.  Python
keyword defaults are passed explicitly at call sites.  The dividend-yield
parameter `q` appears in the source signature but is never read by the body. -/
noncomputable def iv_call_v2 (market_price S0 K t r q vol_lo vol_hi max_hi
    xtol rtol : ℝ) (maxiter : ℕ) : Except IVErr ℝ :=
  match expandLoop (fun sig => bs_call S0 K sig t r - market_price)
      (bs_call S0 K vol_lo t r - market_price) max_hi
      (expandFuel vol_hi max_hi) vol_hi
      (bs_call S0 K vol_hi t r - market_price) with
  | none => Except.error IVErr.expansionDiverged
  | some (hi, f_hi) =>
    if (bs_call S0 K vol_lo t r - market_price) * f_hi > 0 then
      Except.error (IVErr.bracketFail
        (bs_call S0 K vol_lo t r - market_price) vol_lo f_hi hi)
    else
      match brentq (fun sig => bs_call S0 K sig t r - market_price)
          vol_lo hi xtol rtol maxiter with
      | Except.ok x => Except.ok x
      | Except.error BrentErr.badBracket => Except.error IVErr.brentBadBracket
      | Except.error BrentErr.notConverged => Except.error IVErr.notConverged

/-- `scipy.optimize.brentq` default `xtol` (2e-12). -/
noncomputable def scipyXtol : ℝ := 2 / 10 ^ 12

/-- `scipy.optimize.brentq` default `rtol` (4 times the double-precision
machine epsilon, `4 * 2^-52 = 2^-50`). -/
noncomputable def scipyRtol : ℝ := 4 / 2 ^ 52

/-- Embedding of `implied_volatility_call(market_price, S0, K, t, r,
sigma_bounds=(1e-7, 20))`: calls `brentq` on the objective over the given
bounds with scipy's default tolerances and `maxiter=100`; a `ValueError`
(bad bracket) is caught and turned into `np.nan`, embedded here as
`Except.ok none`; scipy's non-convergence error is not caught and
propagates. -/
noncomputable def implied_volatility_call (market_price S0 K t r lo hi : ℝ) :
    Except BrentErr (Option ℝ) :=
  match brentq (fun sigma => bs_call S0 K sigma t r - market_price)
      lo hi scipyXtol scipyRtol 100 with
  | Except.ok x => Except.ok (some x)
  | Except.error BrentErr.badBracket => Except.ok none
  | Except.error BrentErr.notConverged => Except.error BrentErr.notConverged

theorem bisect_stop (err : ℝ → ℝ) (xtol rtol : ℝ) (fuel : ℕ) (a b : ℝ)
    (hw : b - a < xtol + rtol * |(a + b) / 2|) :
    bisect err xtol rtol fuel a b = Except.ok ((a + b) / 2) := by
  cases fuel <;> · rw [bisect, if_pos hw]

theorem bisect_exhaust (err : ℝ → ℝ) (xtol rtol : ℝ) (a b : ℝ)
    (hw : ¬ (b - a < xtol + rtol * |(a + b) / 2|)) :
    bisect err xtol rtol 0 a b = Except.error BrentErr.notConverged := by
  rw [bisect, if_neg hw]

theorem bisect_step_left (err : ℝ → ℝ) (xtol rtol : ℝ) (fuel : ℕ) (a b : ℝ)
    (hw : ¬ (b - a < xtol + rtol * |(a + b) / 2|))
    (hbr : err a * err ((a + b) / 2) ≤ 0) :
    bisect err xtol rtol (fuel + 1) a b = bisect err xtol rtol fuel a ((a + b) / 2) := by
  rw [bisect, if_neg hw]
  exact if_pos hbr

theorem bisect_step_right (err : ℝ → ℝ) (xtol rtol : ℝ) (fuel : ℕ) (a b : ℝ)
    (hw : ¬ (b - a < xtol + rtol * |(a + b) / 2|))
    (hbr : ¬ (err a * err ((a + b) / 2) ≤ 0)) :
    bisect err xtol rtol (fuel + 1) a b = bisect err xtol rtol fuel ((a + b) / 2) b := by
  rw [bisect, if_neg hw]
  exact if_neg hbr

theorem expandLoop_stop (err : ℝ → ℝ) (f_lo max_hi : ℝ) (fuel : ℕ) (vol_hi f_hi : ℝ)
    (h : ¬ (f_lo * f_hi > 0 ∧ vol_hi < max_hi)) :
    expandLoop err f_lo max_hi fuel vol_hi f_hi = some (vol_hi, f_hi) := by
  cases fuel <;> · rw [expandLoop, if_neg h]

theorem expandLoop_step (err : ℝ → ℝ) (f_lo max_hi : ℝ) (fuel : ℕ) (vol_hi f_hi : ℝ)
    (h : f_lo * f_hi > 0 ∧ vol_hi < max_hi) :
    expandLoop err f_lo max_hi (fuel + 1) vol_hi f_hi
      = expandLoop err f_lo max_hi fuel (vol_hi * 2) (err (vol_hi * 2)) := by
  rw [expandLoop, if_pos h]

theorem ceil_half_lt {x : ℝ} (hx : 1 < x) : Nat.ceil (x / 2) < Nat.ceil x := by
  have h2 : 1 < Nat.ceil x := Nat.lt_ceil.mpr (by exact_mod_cast hx)
  have hle : Nat.ceil (x / 2) ≤ Nat.ceil x - 1 := by
    apply Nat.ceil_le.mpr
    have hxle : x ≤ Nat.ceil x := Nat.le_ceil x
    have hcast : ((Nat.ceil x - 1 : ℕ) : ℝ) = (Nat.ceil x : ℝ) - 1 := by
      have : (1:ℕ) ≤ Nat.ceil x := h2.le
      push_cast [this]
      ring
    rw [hcast]
    have h2r : (2:ℝ) ≤ (Nat.ceil x : ℝ) := by exact_mod_cast h2
    linarith
  omega

theorem expandLoop_total (err : ℝ → ℝ) (f_lo max_hi : ℝ) :
    ∀ fuel : ℕ, ∀ vol_hi f_hi : ℝ, 0 < vol_hi →
      Nat.ceil (max_hi / vol_hi) < fuel →
      ∃ out, expandLoop err f_lo max_hi fuel vol_hi f_hi = some out := by
  intro fuel
  induction fuel with
  | zero => intro vol_hi f_hi _ hfuel; omega
  | succ f ih =>
    intro vol_hi f_hi hpos hfuel
    by_cases hcond : f_lo * f_hi > 0 ∧ vol_hi < max_hi
    · rw [expandLoop_step err f_lo max_hi f vol_hi f_hi hcond]
      apply ih (vol_hi * 2) (err (vol_hi * 2)) (by linarith)
      have hgt : 1 < max_hi / vol_hi := (one_lt_div hpos).mpr hcond.2
      have hhalf : max_hi / (vol_hi * 2) = max_hi / vol_hi / 2 := by
        field_simp
      rw [hhalf]
      have := ceil_half_lt hgt
      omega
    · exact ⟨(vol_hi, f_hi), expandLoop_stop err f_lo max_hi (f + 1) vol_hi f_hi hcond⟩

theorem expandLoop_no_bracket (err : ℝ → ℝ) (f_lo max_hi c : ℝ)
    (hsame : ∀ x : ℝ, c ≤ x → 0 < f_lo * err x) :
    ∀ fuel : ℕ, ∀ vol_hi : ℝ, 0 < vol_hi → c ≤ vol_hi →
      Nat.ceil (max_hi / vol_hi) < fuel →
      ∃ hiF, expandLoop err f_lo max_hi fuel vol_hi (err vol_hi)
          = some (hiF, err hiF)
        ∧ 0 < hiF ∧ vol_hi ≤ hiF ∧ max_hi ≤ hiF
        ∧ (hiF = vol_hi ∨ hiF < 2 * max_hi) := by
  intro fuel
  induction fuel with
  | zero => intro vol_hi _ _ hfuel; omega
  | succ f ih =>
    intro vol_hi hpos hc hfuel
    by_cases hmax : vol_hi < max_hi
    · have hcond : f_lo * err vol_hi > 0 ∧ vol_hi < max_hi := ⟨hsame vol_hi hc, hmax⟩
      rw [expandLoop_step err f_lo max_hi f vol_hi (err vol_hi) hcond]
      have hfuel2 : Nat.ceil (max_hi / (vol_hi * 2)) < f := by
        have hgt : 1 < max_hi / vol_hi := (one_lt_div hpos).mpr hmax
        have hhalf : max_hi / (vol_hi * 2) = max_hi / vol_hi / 2 := by
          field_simp
        rw [hhalf]
        have := ceil_half_lt hgt
        omega
      obtain ⟨hiF, heq, hFpos, hFmono, hFge, hFcase⟩ :=
        ih (vol_hi * 2) (by linarith) (by linarith) hfuel2
      refine ⟨hiF, heq, hFpos, by linarith, hFge, Or.inr ?_⟩
      rcases hFcase with hcase | hcase
      · rw [hcase]; linarith
      · exact hcase
    · refine ⟨vol_hi, ?_, hpos, le_rfl, not_lt.mp hmax, Or.inl rfl⟩
      apply expandLoop_stop
      intro hcond
      exact hmax hcond.2

theorem expandFuel_gt (vol_hi max_hi : ℝ) :
    Nat.ceil (max_hi / vol_hi) < expandFuel vol_hi max_hi := by
  unfold expandFuel
  omega

theorem bisect_converges (err : ℝ → ℝ) (xtol rtol : ℝ) (hxtol : 0 < xtol)
    (hrtol : 0 ≤ rtol) (root : ℝ) (hroot : err root = 0)
    (hmono : ∀ x y : ℝ, 0 < x → x < y → err x < err y) :
    ∀ fuel : ℕ, ∀ a b : ℝ, 0 < a → a ≤ root → root ≤ b →
      b - a < xtol * 2 ^ fuel →
      ∃ m, bisect err xtol rtol fuel a b = Except.ok m
        ∧ |m - root| < xtol + rtol * |m| := by
  intro fuel
  induction fuel with
  | zero =>
    intro a b ha har hrb hw
    have hw0 : b - a < xtol + rtol * |(a + b) / 2| := by
      have habs : 0 ≤ rtol * |(a + b) / 2| := mul_nonneg hrtol (abs_nonneg _)
      simp only [pow_zero, mul_one] at hw
      linarith
    refine ⟨(a + b) / 2, bisect_stop err xtol rtol 0 a b hw0, ?_⟩
    have hm : |(a + b) / 2 - root| ≤ b - a := by
      rw [abs_le]
      constructor <;> linarith
    linarith
  | succ f ih =>
    intro a b ha har hrb hw
    by_cases hw0 : b - a < xtol + rtol * |(a + b) / 2|
    · refine ⟨(a + b) / 2, bisect_stop err xtol rtol (f + 1) a b hw0, ?_⟩
      have hm : |(a + b) / 2 - root| ≤ b - a := by
        rw [abs_le]
        constructor <;> linarith
      have habs : 0 ≤ rtol * |(a + b) / 2| := mul_nonneg hrtol (abs_nonneg _)
      calc |(a + b) / 2 - root| ≤ b - a := hm
        _ < xtol + rtol * |(a + b) / 2| := hw0
    · have herra : err a ≤ 0 := by
        rcases eq_or_lt_of_le har with heq | hlt
        · rw [heq, hroot]
        · exact (hmono a root ha hlt).le.trans (le_of_eq hroot)
      have hab : a ≤ b := har.trans hrb
      have hm_ge : a ≤ (a + b) / 2 := by linarith
      have hm_pos : 0 < (a + b) / 2 := lt_of_lt_of_le ha hm_ge
      by_cases hbr : err a * err ((a + b) / 2) ≤ 0
      · rw [bisect_step_left err xtol rtol f a b hw0 hbr]
        have hrm : root ≤ (a + b) / 2 := by
          by_contra hcon
          push_neg at hcon
          have herrm : err ((a + b) / 2) < 0 := by
            have := hmono ((a + b) / 2) root hm_pos hcon
            rw [hroot] at this
            linarith
          have hprod : 0 ≤ err a * err ((a + b) / 2) := by nlinarith
          have hzero : err a * err ((a + b) / 2) = 0 := le_antisymm hbr hprod
          have hea : err a = 0 := by
            rcases mul_eq_zero.mp hzero with h | h
            · exact h
            · exact absurd h herrm.ne
          have haroot : a = root := by
            rcases eq_or_lt_of_le har with heq | hlt
            · exact heq
            · have := hmono a root ha hlt
              rw [hroot, hea] at this
              exact absurd this (lt_irrefl 0)
          rw [← haroot] at hcon
          linarith
        apply ih a ((a + b) / 2) ha har hrm
        have : (a + b) / 2 - a = (b - a) / 2 := by ring
        rw [this]
        rw [pow_succ] at hw
        linarith
      · rw [bisect_step_right err xtol rtol f a b hw0 hbr]
        push_neg at hbr
        have herra' : err a < 0 := by
          rcases lt_or_eq_of_le herra with h | h
          · exact h
          · rw [h] at hbr
            simp at hbr
        have herrm : err ((a + b) / 2) < 0 := by
          by_contra hcon
          push_neg at hcon
          nlinarith
        have hmr : (a + b) / 2 ≤ root := by
          by_contra hcon
          push_neg at hcon
          rcases eq_or_lt_of_le hrb with heq | _
          · have hrpos : 0 < root := lt_of_lt_of_le ha har
            have := hmono root ((a + b) / 2) hrpos hcon
            rw [hroot] at this
            linarith
          · have hrpos : 0 < root := lt_of_lt_of_le ha har
            have := hmono root ((a + b) / 2) hrpos hcon
            rw [hroot] at this
            linarith
        apply ih ((a + b) / 2) b hm_pos hmr hrb
        have : b - (a + b) / 2 = (b - a) / 2 := by ring
        rw [this]
        rw [pow_succ] at hw
        linarith

theorem iv_call_v2_no_bracket (mp S0 K t r q vol_lo vol_hi max_hi xtol rtol : ℝ)
    (maxiter : ℕ) (hhi : 0 < vol_hi)
    (hsame : ∀ x : ℝ, vol_hi ≤ x →
      0 < (bs_call S0 K vol_lo t r - mp) * (bs_call S0 K x t r - mp)) :
    ∃ hiF, iv_call_v2 mp S0 K t r q vol_lo vol_hi max_hi xtol rtol maxiter
        = Except.error (IVErr.bracketFail (bs_call S0 K vol_lo t r - mp) vol_lo
            (bs_call S0 K hiF t r - mp) hiF)
      ∧ 0 < hiF ∧ max_hi ≤ hiF ∧ (hiF = vol_hi ∨ hiF < 2 * max_hi) := by
  obtain ⟨hiF, heq, hFpos, hFmono, hFge, hFcase⟩ :=
    expandLoop_no_bracket (fun sig => bs_call S0 K sig t r - mp)
      (bs_call S0 K vol_lo t r - mp) max_hi vol_hi
      (fun x hx => hsame x hx) (expandFuel vol_hi max_hi) vol_hi hhi le_rfl
      (expandFuel_gt vol_hi max_hi)
  refine ⟨hiF, ?_, hFpos, hFge, hFcase⟩
  unfold iv_call_v2
  rw [heq]
  have hcond : (bs_call S0 K vol_lo t r - mp) * (bs_call S0 K hiF t r - mp) > 0 :=
    hsame hiF hFmono
  simp only [hcond, if_true, gt_iff_lt, if_pos]

theorem iv_call_v2_to_bisect (mp S0 K t r q vol_lo vol_hi max_hi xtol rtol : ℝ)
    (maxiter : ℕ)
    (hflo : bs_call S0 K vol_lo t r - mp ≤ 0)
    (hfhi : 0 ≤ bs_call S0 K vol_hi t r - mp) :
    iv_call_v2 mp S0 K t r q vol_lo vol_hi max_hi xtol rtol maxiter
      = match bisect (fun sig => bs_call S0 K sig t r - mp) xtol rtol maxiter
          vol_lo vol_hi with
        | Except.ok x => Except.ok x
        | Except.error BrentErr.badBracket => Except.error IVErr.brentBadBracket
        | Except.error BrentErr.notConverged => Except.error IVErr.notConverged := by
  have hprod : ¬ ((bs_call S0 K vol_lo t r - mp)
      * (bs_call S0 K vol_hi t r - mp) > 0) := by
    push_neg
    exact mul_nonpos_of_nonpos_of_nonneg hflo hfhi
  have hstop := expandLoop_stop (fun sig => bs_call S0 K sig t r - mp)
    (bs_call S0 K vol_lo t r - mp) max_hi (expandFuel vol_hi max_hi) vol_hi
    (bs_call S0 K vol_hi t r - mp) (by
      intro hcond
      exact hprod hcond.1)
  unfold iv_call_v2
  rw [hstop]
  simp only [hprod, if_false]
  unfold brentq
  rw [if_neg hprod]

theorem bs_call_lt_two (x : ℝ) : bs_call 1 1 x 1 0 - 2 < 0 := by
  have := bs_call_lt_spot 1 1 x 1 0 one_pos one_pos
  linarith

theorem expandFuel_50_2000 : expandFuel 50 2000 = 41 := by
  unfold expandFuel
  have h : (2000:ℝ) / 50 = 40 := by norm_num
  rw [h]
  norm_num

theorem expand_trace_mp_two :
    expandLoop (fun sig => bs_call 1 1 sig 1 0 - 2) (bs_call 1 1 (1/10^12) 1 0 - 2)
      2000 41 50 (bs_call 1 1 50 1 0 - 2)
      = some (3200, bs_call 1 1 3200 1 0 - 2) := by
  have hf := bs_call_lt_two (1/10^12)
  have hstep : ∀ (fuel : ℕ) (hi : ℝ), hi < 2000 →
      expandLoop (fun sig => bs_call 1 1 sig 1 0 - 2) (bs_call 1 1 (1/10^12) 1 0 - 2)
        2000 (fuel + 1) hi (bs_call 1 1 hi 1 0 - 2)
      = expandLoop (fun sig => bs_call 1 1 sig 1 0 - 2) (bs_call 1 1 (1/10^12) 1 0 - 2)
        2000 fuel (hi * 2) (bs_call 1 1 (hi * 2) 1 0 - 2) := by
    intro fuel hi hlt
    exact expandLoop_step _ _ _ fuel hi _
      ⟨mul_pos_of_neg_of_neg hf (bs_call_lt_two hi), hlt⟩
  rw [show (41:ℕ) = 40 + 1 by norm_num, hstep 40 50 (by norm_num),
    show (50:ℝ) * 2 = 100 by norm_num]
  rw [show (40:ℕ) = 39 + 1 by norm_num, hstep 39 100 (by norm_num),
    show (100:ℝ) * 2 = 200 by norm_num]
  rw [show (39:ℕ) = 38 + 1 by norm_num, hstep 38 200 (by norm_num),
    show (200:ℝ) * 2 = 400 by norm_num]
  rw [show (38:ℕ) = 37 + 1 by norm_num, hstep 37 400 (by norm_num),
    show (400:ℝ) * 2 = 800 by norm_num]
  rw [show (37:ℕ) = 36 + 1 by norm_num, hstep 36 800 (by norm_num),
    show (800:ℝ) * 2 = 1600 by norm_num]
  rw [show (36:ℕ) = 35 + 1 by norm_num, hstep 35 1600 (by norm_num),
    show (1600:ℝ) * 2 = 3200 by norm_num]
  exact expandLoop_stop _ _ _ 35 3200 _ (fun h => absurd h.2 (by norm_num))

theorem iv_trace_mp_two :
    iv_call_v2 2 1 1 1 0 0 (1/10^12) 50 2000 (1/10^12) (1/10^12) 200
      = Except.error (IVErr.bracketFail (bs_call 1 1 (1/10^12) 1 0 - 2) (1/10^12)
          (bs_call 1 1 3200 1 0 - 2) 3200) := by
  unfold iv_call_v2
  rw [expandFuel_50_2000, expand_trace_mp_two]
  have hprod : (bs_call 1 1 (1/10^12) 1 0 - 2) * (bs_call 1 1 3200 1 0 - 2) > 0 :=
    mul_pos_of_neg_of_neg (bs_call_lt_two _) (bs_call_lt_two _)
  simp only [hprod, gt_iff_lt, if_pos]

theorem implied_volatility_call_nan_mp_two :
    implied_volatility_call 2 1 1 1 0 (1/10^7) 20 = Except.ok none := by
  unfold implied_volatility_call brentq
  have hprod : (bs_call 1 1 (1/10^7) 1 0 - 2) * (bs_call 1 1 20 1 0 - 2) > 0 :=
    mul_pos_of_neg_of_neg (bs_call_lt_two _) (bs_call_lt_two _)
  simp only [hprod, gt_iff_lt, if_pos]

theorem bisect_fuel_zero_wide :
    bisect (fun sig => bs_call 1 1 sig 1 0 - 1/2) (1/10^12) (1/10^12) 0 (1/10^12) 50
      = Except.error BrentErr.notConverged := by
  apply bisect_exhaust
  have habs : |((1/10^12 : ℝ) + 50) / 2| = ((1/10^12 : ℝ) + 50) / 2 :=
    abs_of_pos (by norm_num)
  rw [not_lt, habs]
  norm_num

theorem bs_call_err_strictMono (S0 K t r mp : ℝ) (hS : 0 < S0) (hK : 0 < K)
    (ht : 0 < t) :
    ∀ x y : ℝ, 0 < x → x < y →
      bs_call S0 K x t r - mp < bs_call S0 K y t r - mp := by
  intro x y hx hxy
  have h := bs_call_strictMonoOn S0 K t r hS hK ht (Set.mem_Ioi.mpr hx)
    (Set.mem_Ioi.mpr (hx.trans hxy)) hxy
  simp only at h
  linarith

/-!  Claim theorems.  Each claim of the specification review is settled by the
theorems below; counterexamples are closed statements at concrete inputs. -/

/-- C3 (counterexample): the claim says that for non-positive spot the pricing
function fails with a structured `DomainError`; in the source, `bs_price` with
spot `-1` performs no domain check and returns the numeric formula value
(`Except.ok`), raising nothing. -/
theorem bs_price_negative_spot_returns_value_cex :
    bs_price (-1) 1 1 1 0 callString = Except.ok (bs_call (-1) 1 1 1 0)
    ∧ ¬ ∃ e : String, bs_price (-1) 1 1 1 0 callString = Except.error e := by
  constructor
  · simp [bs_price]
  · rintro ⟨e, he⟩
    simp [bs_price] at he

/-- C3 (amended): the pricing functions perform no validation of spot, strike
or time: for arbitrary numeric inputs (including non-positive ones) `bs_price`
returns `ok` of the call/put formula value; only an invalid `option_type`
string raises `ValueError("Invalid option type.")`. -/
theorem bs_price_no_domain_validation :
    ∀ S0 K sigma t r : ℝ,
      bs_price S0 K sigma t r callString = Except.ok (bs_call S0 K sigma t r)
      ∧ bs_price S0 K sigma t r putString = Except.ok (bs_put S0 K sigma t r)
      ∧ ∀ ty : String, ty ≠ callString → ty ≠ putString →
          bs_price S0 K sigma t r ty = Except.error invalidTypeMsg := by
  intro S0 K sigma t r
  refine ⟨by simp [bs_price], by simp [bs_price, callString, putString], ?_⟩
  intro ty h1 h2
  simp [bs_price, h1, h2]

/-- Witness for C3's amended theorem at concrete inputs, including a
non-positive spot and an invalid option-type string. -/
theorem bs_price_no_domain_validation_witness :
    bs_price (-1) 1 1 1 0 callString = Except.ok (bs_call (-1) 1 1 1 0)
    ∧ bs_price (-1) 1 1 1 0 "zzz" = Except.error invalidTypeMsg :=
  ⟨(bs_price_no_domain_validation (-1) 1 1 1 0).1,
    (bs_price_no_domain_validation (-1) 1 1 1 0).2.2 "zzz"
      (by simp [callString]) (by simp [putString])⟩

/-- C4 (counterexample): the claim says the code computes the dividend-yield
formula `S·e^(−q·t)·Φ(d1) − K·e^(−r·t)·Φ(d2)` with `q` in `d1`; this is false:
at `S0 = K = 1`, `σ = 2`, `t = 1`, `r = 0`, the source's `bs_call` cannot equal
the spec formula at both `q = 0` and `q = 1`, because the spec formula takes a
value above `1/2` at `q = 0` and below `1/2` at `q = 1` while the code's price
ignores `q`. -/
theorem bs_call_not_specQ_formula_cex :
    ¬ (∀ S0 K sigma t r q : ℝ, 0 < S0 → 0 < K → 0 < sigma → 0 < t →
        bs_call S0 K sigma t r = bs_call_specQ S0 K sigma t r q) := by
  intro h
  have h0 := h 1 1 2 1 0 0 one_pos one_pos (by norm_num) one_pos
  have h1 := h 1 1 2 1 0 1 one_pos one_pos (by norm_num) one_pos
  have hgt := specQ_zero_gt_half
  have hlt := specQ_one_lt_half
  rw [← h0] at hgt
  rw [← h1] at hlt
  linarith

/-- C4 (amended): the source's `bs_call` computes the q-free formula
`S·Φ(d1) − K·e^(−r·t)·Φ(d2)` with `d1 = (ln(S/K) + (r + 0.5·σ²)·t)/(σ·√t)`,
i.e. the spec formula specialised at dividend yield `q = 0`; the price does
not depend on a dividend yield. -/
theorem bs_call_eq_specQ_at_zero :
    ∀ S0 K sigma t r : ℝ, bs_call S0 K sigma t r = bs_call_specQ S0 K sigma t r 0 := by
  intro S0 K sigma t r
  unfold bs_call bs_call_specQ
  norm_num

/-- C7 (confirmed): for fixed positive spot, strike and time, both the call
price and the put price are strictly increasing in volatility on `(0, ∞)`. -/
theorem bs_price_strict_mono_in_vol :
    ∀ S0 K t r : ℝ, 0 < S0 → 0 < K → 0 < t →
      StrictMonoOn (fun sigma => bs_call S0 K sigma t r) (Set.Ioi 0)
      ∧ StrictMonoOn (fun sigma => bs_put S0 K sigma t r) (Set.Ioi 0) :=
  fun S0 K t r hS hK ht =>
    ⟨bs_call_strictMonoOn S0 K t r hS hK ht, bs_put_strictMonoOn S0 K t r hS hK ht⟩

/-- Witness for C7 at `S0 = K = t = 1`, `r = 0`, volatilities `1 < 2`. -/
theorem bs_price_strict_mono_in_vol_witness :
    bs_call 1 1 1 1 0 < bs_call 1 1 2 1 0 ∧ bs_put 1 1 1 1 0 < bs_put 1 1 2 1 0 :=
  ⟨(bs_price_strict_mono_in_vol 1 1 1 0 one_pos one_pos one_pos).1
      (Set.mem_Ioi.mpr one_pos) (Set.mem_Ioi.mpr (by norm_num)) one_lt_two,
    (bs_price_strict_mono_in_vol 1 1 1 0 one_pos one_pos one_pos).2
      (Set.mem_Ioi.mpr one_pos) (Set.mem_Ioi.mpr (by norm_num)) one_lt_two⟩

/-- C8 (counterexample): the claim's parity identity
`call − put = S·e^(−q·t) − K·e^(−r·t)` fails for `q ≠ 0`: at
`S0 = K = σ = t = 1`, `r = 0`, `q = 1` the code's `call − put` differs from
the claimed right-hand side by more than `1/2`, far beyond floating
tolerance. -/
theorem put_call_parity_with_q_cex :
    |(bs_call 1 1 1 1 0 - bs_put 1 1 1 1 0)
      - (1 * Real.exp (-1 * 1) - 1 * Real.exp (-0 * 1))| > 1 / 2 := by
  have hpar := bs_call_sub_bs_put 1 1 1 1 0
  have h0 : bs_call 1 1 1 1 0 - bs_put 1 1 1 1 0 = 0 := by
    rw [hpar]
    norm_num
  rw [h0]
  have h1 : (-1 : ℝ) * 1 = -1 := by norm_num
  have h2 : (-0 : ℝ) * 1 = 0 := by norm_num
  rw [h1, h2, Real.exp_zero]
  have h3 := exp_neg_one_lt_half
  have h4 := Real.exp_pos (-1 : ℝ)
  rw [abs_of_pos (by linarith)]
  linarith

/-- C8 (amended): the source's pricing functions contain no dividend yield, so
put-call parity holds exactly in the `q = 0` form:
`call − put = S − K·e^(−r·t)` for all inputs. -/
theorem put_call_parity_code :
    ∀ S0 K sigma t r : ℝ,
      bs_call S0 K sigma t r - bs_put S0 K sigma t r = S0 - K * Real.exp (-r * t) :=
  fun S0 K sigma t r => bs_call_sub_bs_put S0 K sigma t r

/-- C10 (confirmed): `iv_call_v2` never reads its dividend-yield parameter
`q`: for any two values `q1`, `q2` and identical remaining arguments the
results (returned value or embedded raised error) are identical. -/
theorem iv_call_v2_independent_of_q :
    ∀ (mp S0 K t r q1 q2 vol_lo vol_hi max_hi xtol rtol : ℝ) (maxiter : ℕ),
      iv_call_v2 mp S0 K t r q1 vol_lo vol_hi max_hi xtol rtol maxiter
        = iv_call_v2 mp S0 K t r q2 vol_lo vol_hi max_hi xtol rtol maxiter :=
  fun _ _ _ _ _ _ _ _ _ _ _ _ _ => rfl

/-- C1 (counterexample): the claim says the implied-volatility solver never
raises and never returns a NaN sentinel on unbracketable inputs.  At market
price `2` (above spot `1`, so no volatility can reproduce it), `iv_call_v2`
raises `ValueError` (embedded as an error value) and `implied_volatility_call`
returns `np.nan` (embedded as `ok none`). -/
theorem iv_solver_raises_and_nan_cex :
    iv_call_v2 2 1 1 1 0 0 (1/10^12) 50 2000 (1/10^12) (1/10^12) 200
      = Except.error (IVErr.bracketFail (bs_call 1 1 (1/10^12) 1 0 - 2) (1/10^12)
          (bs_call 1 1 3200 1 0 - 2) 3200)
    ∧ implied_volatility_call 2 1 1 1 0 (1/10^7) 20 = Except.ok none :=
  ⟨iv_trace_mp_two, implied_volatility_call_nan_mp_two⟩

/-- C1 (amended): when no sign-change bracket exists (the objective stays on
one side: `bs_call < market_price` for every positive volatility, as for
prices beyond the arbitrage bound), `iv_call_v2` raises `ValueError` carrying
the last evaluated `(f_lo, lo, f_hi, hi)` — the raise is embedded as the
`bracketFail` error value with that payload — rather than returning a number,
while the v1 solver `implied_volatility_call` catches the bracket error and
returns the NaN sentinel (`none`). -/
theorem iv_solver_unbracketable_behaviour
    (mp S0 K t r q vol_lo vol_hi max_hi xtol rtol : ℝ) (maxiter : ℕ) (lo2 hi2 : ℝ)
    (hlo : 0 < vol_lo) (hhi : 0 < vol_hi) (hlo2 : 0 < lo2) (hhi2 : 0 < hi2)
    (hub : ∀ x : ℝ, 0 < x → bs_call S0 K x t r < mp) :
    (∃ hiF, iv_call_v2 mp S0 K t r q vol_lo vol_hi max_hi xtol rtol maxiter
        = Except.error (IVErr.bracketFail (bs_call S0 K vol_lo t r - mp) vol_lo
            (bs_call S0 K hiF t r - mp) hiF))
    ∧ implied_volatility_call mp S0 K t r lo2 hi2 = Except.ok none := by
  have hsame : ∀ x : ℝ, vol_hi ≤ x →
      0 < (bs_call S0 K vol_lo t r - mp) * (bs_call S0 K x t r - mp) := by
    intro x hx
    have h1 := hub vol_lo hlo
    have h2 := hub x (lt_of_lt_of_le hhi hx)
    exact mul_pos_of_neg_of_neg (by linarith) (by linarith)
  constructor
  · obtain ⟨hiF, heq, _, _, _⟩ := iv_call_v2_no_bracket mp S0 K t r q vol_lo vol_hi
      max_hi xtol rtol maxiter hhi hsame
    exact ⟨hiF, heq⟩
  · unfold implied_volatility_call brentq
    have hprod : (bs_call S0 K lo2 t r - mp) * (bs_call S0 K hi2 t r - mp) > 0 := by
      have h1 := hub lo2 hlo2
      have h2 := hub hi2 hhi2
      exact mul_pos_of_neg_of_neg (by linarith) (by linarith)
    simp only [hprod, gt_iff_lt, if_pos]

/-- Witness for C1's amended theorem at market price `2`, spot `1` with the
Python default solver arguments. -/
theorem iv_solver_unbracketable_behaviour_witness :
    (∃ hiF, iv_call_v2 2 1 1 1 0 0 (1/10^12) 50 2000 (1/10^12) (1/10^12) 200
        = Except.error (IVErr.bracketFail (bs_call 1 1 (1/10^12) 1 0 - 2) (1/10^12)
            (bs_call 1 1 hiF 1 0 - 2) hiF))
    ∧ implied_volatility_call 2 1 1 1 0 (1/10^7) 20 = Except.ok none :=
  iv_solver_unbracketable_behaviour 2 1 1 1 0 0 (1/10^12) 50 2000 (1/10^12) (1/10^12)
    200 (1/10^7) 20 (by norm_num) (by norm_num) (by norm_num) (by norm_num)
    (fun x _ => lt_trans (bs_call_lt_spot 1 1 x 1 0 one_pos one_pos) one_lt_two)

/-- C2 (counterexample): the claim says the evaluated upper bracket endpoint
never exceeds `max_vol_hi`.  With the default configuration
(`vol_hi = 50`, `max_hi = 2000`) and market price `2 > spot`, the loop doubles
`50 → 100 → 200 → 400 → 800 → 1600 → 3200` and evaluates `err(3200)`: the last
evaluated endpoint `3200` exceeds `max_vol_hi = 2000` (the source doubles
without capping). -/
theorem expansion_hi_exceeds_max_hi_cex :
    (iv_call_v2 2 1 1 1 0 0 (1/10^12) 50 2000 (1/10^12) (1/10^12) 200
      = Except.error (IVErr.bracketFail (bs_call 1 1 (1/10^12) 1 0 - 2) (1/10^12)
          (bs_call 1 1 3200 1 0 - 2) 3200))
    ∧ (2000:ℝ) < 3200 :=
  ⟨iv_trace_mp_two, by norm_num⟩

/-- C2 (amended): during bracket expansion the solver doubles `hi` *without*
capping at `max_vol_hi` and recomputes `f_hi = err(hi)` after each doubling;
consequently an evaluated endpoint may exceed `max_vol_hi`, but every exit
state of the loop stays below `2·max_vol_hi` (when started below it), and its
second component is `err` evaluated at the exit endpoint unless no doubling
occurred at all. -/
theorem expandLoop_uncapped_doubling_bound (err : ℝ → ℝ) (f_lo max_hi : ℝ) :
    ∀ fuel : ℕ, ∀ vol_hi f_hi : ℝ, 0 < vol_hi → vol_hi < 2 * max_hi →
      ∀ out : ℝ × ℝ,
        expandLoop err f_lo max_hi fuel vol_hi f_hi = some out →
        out.1 < 2 * max_hi
        ∧ ((out.1 = vol_hi ∧ out.2 = f_hi) ∨ out.2 = err out.1) := by
  intro fuel
  induction fuel with
  | zero =>
    intro vol_hi f_hi hpos hlt out hout
    by_cases hcond : f_lo * f_hi > 0 ∧ vol_hi < max_hi
    · rw [expandLoop, if_pos hcond] at hout
      exact absurd hout (by simp)
    · rw [expandLoop_stop err f_lo max_hi 0 vol_hi f_hi hcond] at hout
      injection hout with h
      rw [← h]
      exact ⟨hlt, Or.inl ⟨rfl, rfl⟩⟩
  | succ f ih =>
    intro vol_hi f_hi hpos hlt out hout
    by_cases hcond : f_lo * f_hi > 0 ∧ vol_hi < max_hi
    · rw [expandLoop_step err f_lo max_hi f vol_hi f_hi hcond] at hout
      have hres := ih (vol_hi * 2) (err (vol_hi * 2)) (by linarith)
        (by linarith [hcond.2]) out hout
      refine ⟨hres.1, Or.inr ?_⟩
      rcases hres.2 with ⟨h1, h2⟩ | h2
      · rw [← h1] at h2
        exact h2
      · exact h2
    · rw [expandLoop_stop err f_lo max_hi (f + 1) vol_hi f_hi hcond] at hout
      injection hout with h
      rw [← h]
      exact ⟨hlt, Or.inl ⟨rfl, rfl⟩⟩

/-- Witness for C2's amended theorem on a concrete loop state that exits
immediately. -/
theorem expandLoop_uncapped_doubling_bound_witness :
    expandLoop (fun x : ℝ => x) 0 2000 0 50 1 = some (50, 1)
    ∧ ((50:ℝ), (1:ℝ)).1 < 2 * 2000
    ∧ ((((50:ℝ), (1:ℝ)).1 = 50 ∧ ((50:ℝ), (1:ℝ)).2 = 1)
        ∨ ((50:ℝ), (1:ℝ)).2 = (fun x : ℝ => x) ((50:ℝ), (1:ℝ)).1) := by
  have hsome : expandLoop (fun x : ℝ => x) 0 2000 0 50 1 = some (50, 1) := by
    apply expandLoop_stop
    intro h
    have : (0:ℝ) * 1 > 0 := h.1
    norm_num at this
  have hres := expandLoop_uncapped_doubling_bound (fun x : ℝ => x) 0 2000 0 50 1
    (by norm_num) (by norm_num) (50, 1) hsome
  exact ⟨hsome, hres.1, hres.2⟩

/-- C9 (confirmed, over valid solver configurations `0 < vol_hi`): for market
prices beyond the arbitrage bound (`market_price > spot`), the bracket
expansion performs only finitely many doublings (the internal fuel, one more
than `⌈max_hi / vol_hi⌉`, is never exhausted), the solver terminates with the
bracket-failure `ValueError`, and the expansion respects the `max_hi` ceiling:
the final endpoint is the first doubled value at or above `max_hi` (hence below
`2·max_hi`), or the initial `vol_hi` itself. -/
theorem iv_call_v2_terminates_beyond_arbitrage
    (mp S0 K t r q vol_lo vol_hi max_hi xtol rtol : ℝ) (maxiter : ℕ)
    (hS : 0 < S0) (hK : 0 < K) (hhi : 0 < vol_hi) (hmp : S0 < mp) :
    ∃ hiF, iv_call_v2 mp S0 K t r q vol_lo vol_hi max_hi xtol rtol maxiter
        = Except.error (IVErr.bracketFail (bs_call S0 K vol_lo t r - mp) vol_lo
            (bs_call S0 K hiF t r - mp) hiF)
      ∧ max_hi ≤ hiF ∧ (hiF = vol_hi ∨ hiF < 2 * max_hi) := by
  have hsame : ∀ x : ℝ, vol_hi ≤ x →
      0 < (bs_call S0 K vol_lo t r - mp) * (bs_call S0 K x t r - mp) := by
    intro x _
    have h1 := bs_call_lt_spot S0 K vol_lo t r hS hK
    have h2 := bs_call_lt_spot S0 K x t r hS hK
    exact mul_pos_of_neg_of_neg (by linarith) (by linarith)
  obtain ⟨hiF, heq, _, hge, hcase⟩ := iv_call_v2_no_bracket mp S0 K t r q vol_lo
    vol_hi max_hi xtol rtol maxiter hhi hsame
  exact ⟨hiF, heq, hge, hcase⟩

/-- Witness for C9 at market price `2 > spot = 1` with the Python default
solver arguments. -/
theorem iv_call_v2_terminates_beyond_arbitrage_witness :
    ∃ hiF, iv_call_v2 2 1 1 1 0 0 (1/10^12) 50 2000 (1/10^12) (1/10^12) 200
        = Except.error (IVErr.bracketFail (bs_call 1 1 (1/10^12) 1 0 - 2) (1/10^12)
            (bs_call 1 1 hiF 1 0 - 2) hiF)
      ∧ (2000:ℝ) ≤ hiF ∧ (hiF = 50 ∨ hiF < 2 * 2000) :=
  iv_call_v2_terminates_beyond_arbitrage 2 1 1 1 0 0 (1/10^12) 50 2000 (1/10^12)
    (1/10^12) 200 one_pos one_pos (by norm_num) one_lt_two

/-- C5 (confirmed, with the root-finder modelled from the spec): when a valid
bracket is found (`f_lo ≤ 0 ≤ f_hi`) but the iteration budget is exhausted
before the tolerance is met, `iv_call_v2` produces the tagged `notConverged`
outcome — distinct from any `bracketFail` outcome — and never a numeric
value. -/
theorem iv_call_v2_not_converged_tagged
    (mp S0 K t r q vol_lo vol_hi max_hi xtol rtol : ℝ) (maxiter : ℕ)
    (hflo : bs_call S0 K vol_lo t r - mp ≤ 0)
    (hfhi : 0 ≤ bs_call S0 K vol_hi t r - mp)
    (hnc : bisect (fun sig => bs_call S0 K sig t r - mp) xtol rtol maxiter
      vol_lo vol_hi = Except.error BrentErr.notConverged) :
    iv_call_v2 mp S0 K t r q vol_lo vol_hi max_hi xtol rtol maxiter
        = Except.error IVErr.notConverged
    ∧ (∀ x : ℝ, iv_call_v2 mp S0 K t r q vol_lo vol_hi max_hi xtol rtol maxiter
        ≠ Except.ok x)
    ∧ (∀ a b c d : ℝ, iv_call_v2 mp S0 K t r q vol_lo vol_hi max_hi xtol rtol maxiter
        ≠ Except.error (IVErr.bracketFail a b c d)) := by
  have h := iv_call_v2_to_bisect mp S0 K t r q vol_lo vol_hi max_hi xtol rtol
    maxiter hflo hfhi
  rw [hnc] at h
  refine ⟨h, fun x hx => ?_, fun a b c d hx => ?_⟩
  · rw [h] at hx
    simp at hx
  · rw [h] at hx
    simp at hx

/-- Witness for C5: market price `1/2` at `S0 = K = t = 1`, `r = 0` is
bracketed by the default bounds, and with `maxiter = 0` the budget is
exhausted immediately, so the solver reports `notConverged`. -/
theorem iv_call_v2_not_converged_tagged_witness :
    iv_call_v2 (1/2) 1 1 1 0 0 (1/10^12) 50 2000 (1/10^12) (1/10^12) 0
      = Except.error IVErr.notConverged :=
  (iv_call_v2_not_converged_tagged (1/2) 1 1 1 0 0 (1/10^12) 50 2000 (1/10^12)
    (1/10^12) 0
    (by have := bs_call_tiny_lt_half; linarith)
    (by have := bs_call_50_gt_half; linarith)
    bisect_fuel_zero_wide).1

/-- For `σ = 10^-13 < initial_vol_lo = 10^-12` the objective is positive at
both bracket endpoints (the root lies below the lower bound), the expansion
cannot help, and the solver raises the bracket `ValueError` instead of
converging: no `ok` value is returned. -/
theorem iv_below_vol_lo_no_ok :
    ¬ ∃ x : ℝ, iv_call_v2 (bs_call 1 1 (1/10^13) 1 0) 1 1 1 0 0 (1/10^12) 50 2000
      (1/10^12) (1/10^12) 200 = Except.ok x := by
  have hmono := bs_call_err_strictMono 1 1 1 0 (bs_call 1 1 (1/10^13) 1 0)
    one_pos one_pos one_pos
  have hsame : ∀ x : ℝ, (50:ℝ) ≤ x →
      0 < (bs_call 1 1 (1/10^12) 1 0 - bs_call 1 1 (1/10^13) 1 0)
        * (bs_call 1 1 x 1 0 - bs_call 1 1 (1/10^13) 1 0) := by
    intro x hx
    have h1 := hmono (1/10^13) (1/10^12) (by norm_num) (by norm_num)
    rw [sub_self] at h1
    have h2 := hmono (1/10^13) x (by norm_num) (by linarith)
    rw [sub_self] at h2
    exact mul_pos h1 h2
  obtain ⟨hiF, heq, _, _, _⟩ := iv_call_v2_no_bracket (bs_call 1 1 (1/10^13) 1 0)
    1 1 1 0 0 (1/10^12) 50 2000 (1/10^12) (1/10^12) 200 (by norm_num) hsame
  rintro ⟨x, hx⟩
  rw [heq] at hx
  simp at hx

/-- C6 (amended): for all valid pricing inputs with volatility in
`[initial_vol_lo, 5] = [10^-12, 5]`, feeding the computed call price back into
`iv_call_v2` with the Python default configuration converges: it returns a
volatility estimate within the solver's own stopping tolerance
`abs_tol + rel_tol·|estimate|` of the original `σ` (root-finder modelled from
the spec as bracket-halving with that stopping rule). -/
theorem iv_call_v2_roundtrip (S0 K t r q sigma : ℝ) (hS : 0 < S0) (hK : 0 < K)
    (ht : 0 < t) (hlo : 1/10^12 ≤ sigma) (hhi : sigma ≤ 5) :
    ∃ x, iv_call_v2 (bs_call S0 K sigma t r) S0 K t r q (1/10^12) 50 2000
        (1/10^12) (1/10^12) 200 = Except.ok x
      ∧ |x - sigma| < 1/10^12 + 1/10^12 * |x| := by
  have hsig : (0:ℝ) < sigma := lt_of_lt_of_le (by norm_num) hlo
  have hmono := bs_call_err_strictMono S0 K t r (bs_call S0 K sigma t r) hS hK ht
  have hflo : bs_call S0 K (1/10^12) t r - bs_call S0 K sigma t r ≤ 0 := by
    rcases eq_or_lt_of_le hlo with heq | hlt
    · rw [heq]
      simp
    · have h := hmono (1/10^12) sigma (by norm_num) hlt
      rw [sub_self] at h
      linarith
  have hfhi : 0 ≤ bs_call S0 K 50 t r - bs_call S0 K sigma t r := by
    have h50 : sigma < 50 := lt_of_le_of_lt hhi (by norm_num)
    have h := hmono sigma 50 hsig h50
    rw [sub_self] at h
    linarith
  rw [iv_call_v2_to_bisect (bs_call S0 K sigma t r) S0 K t r q (1/10^12) 50 2000
    (1/10^12) (1/10^12) 200 hflo hfhi]
  obtain ⟨m, hm, hbound⟩ := bisect_converges
    (fun sig => bs_call S0 K sig t r - bs_call S0 K sigma t r)
    (1/10^12) (1/10^12) (by norm_num) (by norm_num) sigma (sub_self _) hmono
    200 (1/10^12) 50 (by norm_num) hlo (hhi.trans (by norm_num)) (by norm_num)
  rw [hm]
  exact ⟨m, rfl, hbound⟩

/-- Witness for C6's amended theorem at `S0 = K = t = 1`, `r = 0`, `σ = 1`. -/
theorem iv_call_v2_roundtrip_witness :
    ∃ x, iv_call_v2 (bs_call 1 1 1 1 0) 1 1 1 0 0 (1/10^12) 50 2000 (1/10^12)
        (1/10^12) 200 = Except.ok x
      ∧ |x - 1| < 1/10^12 + 1/10^12 * |x| :=
  iv_call_v2_roundtrip 1 1 1 0 0 1 one_pos one_pos one_pos (by norm_num) (by norm_num)

/-- Full trace of the modelled root-finder on the round-trip objective for
`σ = 39/8` with the Python default configuration: the bracket `[10^-12, 50]`
is halved 43 times and the stopping rule fires with the midpoint below,
which lies about `2.15·10^-12` under the root `39/8`. -/
theorem bisect_trace_roundtrip :
    bisect (fun sig => bs_call 1 1 sig 1 0 - bs_call 1 1 (39/8) 1 0)
      (1/10^12) (1/10^12) 200 (1/10^12) 50 = Except.ok (17152381393313175389581017/3518437208883200000000000) := by
  have hmono := bs_call_err_strictMono 1 1 1 0 (bs_call 1 1 (39/8) 1 0)
    one_pos one_pos one_pos
  have hneg : ∀ x : ℝ, 0 < x → x < 39/8 →
      bs_call 1 1 x 1 0 - bs_call 1 1 (39/8) 1 0 < 0 := by
    intro x hx hlt
    have h := hmono x (39/8) hx hlt
    rw [sub_self] at h
    exact h
  have hpos : ∀ x : ℝ, (39/8 : ℝ) < x →
      0 < bs_call 1 1 x 1 0 - bs_call 1 1 (39/8) 1 0 := by
    intro x hlt
    have h := hmono (39/8) x (by norm_num) hlt
    rw [sub_self] at h
    exact h
  have stepL : ∀ (f : ℕ) (a b : ℝ), 0 < a → a < 39/8 → (39/8 : ℝ) < (a + b) / 2 →
      ¬ (b - a < 1/10^12 + 1/10^12 * |(a + b) / 2|) →
      bisect (fun sig => bs_call 1 1 sig 1 0 - bs_call 1 1 (39/8) 1 0)
        (1/10^12) (1/10^12) (f + 1) a b
      = bisect (fun sig => bs_call 1 1 sig 1 0 - bs_call 1 1 (39/8) 1 0)
        (1/10^12) (1/10^12) f a ((a + b) / 2) := by
    intro f a b ha h5 hm hw
    exact bisect_step_left _ _ _ f a b hw
      (le_of_lt (mul_neg_of_neg_of_pos (hneg a ha h5) (hpos _ hm)))
  have stepR : ∀ (f : ℕ) (a b : ℝ), 0 < a → a < 39/8 → 0 < (a + b) / 2 →
      (a + b) / 2 < 39/8 →
      ¬ (b - a < 1/10^12 + 1/10^12 * |(a + b) / 2|) →
      bisect (fun sig => bs_call 1 1 sig 1 0 - bs_call 1 1 (39/8) 1 0)
        (1/10^12) (1/10^12) (f + 1) a b
      = bisect (fun sig => bs_call 1 1 sig 1 0 - bs_call 1 1 (39/8) 1 0)
        (1/10^12) (1/10^12) f ((a + b) / 2) b := by
    intro f a b ha h5 hm0 hm hw
    exact bisect_step_right _ _ _ f a b hw
      (not_le.mpr (mul_pos_of_neg_of_neg (hneg a ha h5) (hneg _ hm0 hm)))
  rw [show (200:ℕ) = 199 + 1 by norm_num]
  rw [stepL 199 (1/10^12) (50) (by norm_num) (by norm_num) (by norm_num)
    (by rw [not_lt, abs_of_pos (show (0:ℝ) < ((1/10^12) + (50)) / 2 by norm_num)]; norm_num)]
  rw [show (((1/10^12) : ℝ) + (50)) / 2 = 50000000000001/2000000000000 by norm_num]
  rw [show (199:ℕ) = 198 + 1 by norm_num]
  rw [stepL 198 (1/10^12) (50000000000001/2000000000000) (by norm_num) (by norm_num) (by norm_num)
    (by rw [not_lt, abs_of_pos (show (0:ℝ) < ((1/10^12) + (50000000000001/2000000000000)) / 2 by norm_num)]; norm_num)]
  rw [show (((1/10^12) : ℝ) + (50000000000001/2000000000000)) / 2 = 50000000000003/4000000000000 by norm_num]
  rw [show (198:ℕ) = 197 + 1 by norm_num]
  rw [stepL 197 (1/10^12) (50000000000003/4000000000000) (by norm_num) (by norm_num) (by norm_num)
    (by rw [not_lt, abs_of_pos (show (0:ℝ) < ((1/10^12) + (50000000000003/4000000000000)) / 2 by norm_num)]; norm_num)]
  rw [show (((1/10^12) : ℝ) + (50000000000003/4000000000000)) / 2 = 50000000000007/8000000000000 by norm_num]
  rw [show (197:ℕ) = 196 + 1 by norm_num]
  rw [stepR 196 (1/10^12) (50000000000007/8000000000000) (by norm_num) (by norm_num) (by norm_num) (by norm_num)
    (by rw [not_lt, abs_of_pos (show (0:ℝ) < ((1/10^12) + (50000000000007/8000000000000)) / 2 by norm_num)]; norm_num)]
  rw [show (((1/10^12) : ℝ) + (50000000000007/8000000000000)) / 2 = 10000000000003/3200000000000 by norm_num]
  rw [show (196:ℕ) = 195 + 1 by norm_num]
  rw [stepR 195 (10000000000003/3200000000000) (50000000000007/8000000000000) (by norm_num) (by norm_num) (by norm_num) (by norm_num)
    (by rw [not_lt, abs_of_pos (show (0:ℝ) < ((10000000000003/3200000000000) + (50000000000007/8000000000000)) / 2 by norm_num)]; norm_num)]
  rw [show (((10000000000003/3200000000000) : ℝ) + (50000000000007/8000000000000)) / 2 = 150000000000029/32000000000000 by norm_num]
  rw [show (195:ℕ) = 194 + 1 by norm_num]
  rw [stepL 194 (150000000000029/32000000000000) (50000000000007/8000000000000) (by norm_num) (by norm_num) (by norm_num)
    (by rw [not_lt, abs_of_pos (show (0:ℝ) < ((150000000000029/32000000000000) + (50000000000007/8000000000000)) / 2 by norm_num)]; norm_num)]
  rw [show (((150000000000029/32000000000000) : ℝ) + (50000000000007/8000000000000)) / 2 = 350000000000057/64000000000000 by norm_num]
  rw [show (194:ℕ) = 193 + 1 by norm_num]
  rw [stepL 193 (150000000000029/32000000000000) (350000000000057/64000000000000) (by norm_num) (by norm_num) (by norm_num)
    (by rw [not_lt, abs_of_pos (show (0:ℝ) < ((150000000000029/32000000000000) + (350000000000057/64000000000000)) / 2 by norm_num)]; norm_num)]
  rw [show (((150000000000029/32000000000000) : ℝ) + (350000000000057/64000000000000)) / 2 = 130000000000023/25600000000000 by norm_num]
  rw [show (193:ℕ) = 192 + 1 by norm_num]
  rw [stepL 192 (150000000000029/32000000000000) (130000000000023/25600000000000) (by norm_num) (by norm_num) (by norm_num)
    (by rw [not_lt, abs_of_pos (show (0:ℝ) < ((150000000000029/32000000000000) + (130000000000023/25600000000000)) / 2 by norm_num)]; norm_num)]
  rw [show (((150000000000029/32000000000000) : ℝ) + (130000000000023/25600000000000)) / 2 = 1250000000000231/256000000000000 by norm_num]
  rw [show (192:ℕ) = 191 + 1 by norm_num]
  rw [stepR 191 (150000000000029/32000000000000) (1250000000000231/256000000000000) (by norm_num) (by norm_num) (by norm_num) (by norm_num)
    (by rw [not_lt, abs_of_pos (show (0:ℝ) < ((150000000000029/32000000000000) + (1250000000000231/256000000000000)) / 2 by norm_num)]; norm_num)]
  rw [show (((150000000000029/32000000000000) : ℝ) + (1250000000000231/256000000000000)) / 2 = 2450000000000463/512000000000000 by norm_num]
  rw [show (191:ℕ) = 190 + 1 by norm_num]
  rw [stepR 190 (2450000000000463/512000000000000) (1250000000000231/256000000000000) (by norm_num) (by norm_num) (by norm_num) (by norm_num)
    (by rw [not_lt, abs_of_pos (show (0:ℝ) < ((2450000000000463/512000000000000) + (1250000000000231/256000000000000)) / 2 by norm_num)]; norm_num)]
  rw [show (((2450000000000463/512000000000000) : ℝ) + (1250000000000231/256000000000000)) / 2 = 198000000000037/40960000000000 by norm_num]
  rw [show (190:ℕ) = 189 + 1 by norm_num]
  rw [stepR 189 (198000000000037/40960000000000) (1250000000000231/256000000000000) (by norm_num) (by norm_num) (by norm_num) (by norm_num)
    (by rw [not_lt, abs_of_pos (show (0:ℝ) < ((198000000000037/40960000000000) + (1250000000000231/256000000000000)) / 2 by norm_num)]; norm_num)]
  rw [show (((198000000000037/40960000000000) : ℝ) + (1250000000000231/256000000000000)) / 2 = 9950000000001849/2048000000000000 by norm_num]
  rw [show (189:ℕ) = 188 + 1 by norm_num]
  rw [stepR 188 (9950000000001849/2048000000000000) (1250000000000231/256000000000000) (by norm_num) (by norm_num) (by norm_num) (by norm_num)
    (by rw [not_lt, abs_of_pos (show (0:ℝ) < ((9950000000001849/2048000000000000) + (1250000000000231/256000000000000)) / 2 by norm_num)]; norm_num)]
  rw [show (((9950000000001849/2048000000000000) : ℝ) + (1250000000000231/256000000000000)) / 2 = 19950000000003697/4096000000000000 by norm_num]
  rw [show (188:ℕ) = 187 + 1 by norm_num]
  rw [stepL 187 (19950000000003697/4096000000000000) (1250000000000231/256000000000000) (by norm_num) (by norm_num) (by norm_num)
    (by rw [not_lt, abs_of_pos (show (0:ℝ) < ((19950000000003697/4096000000000000) + (1250000000000231/256000000000000)) / 2 by norm_num)]; norm_num)]
  rw [show (((19950000000003697/4096000000000000) : ℝ) + (1250000000000231/256000000000000)) / 2 = 39950000000007393/8192000000000000 by norm_num]
  rw [show (187:ℕ) = 186 + 1 by norm_num]
  rw [stepR 186 (19950000000003697/4096000000000000) (39950000000007393/8192000000000000) (by norm_num) (by norm_num) (by norm_num) (by norm_num)
    (by rw [not_lt, abs_of_pos (show (0:ℝ) < ((19950000000003697/4096000000000000) + (39950000000007393/8192000000000000)) / 2 by norm_num)]; norm_num)]
  rw [show (((19950000000003697/4096000000000000) : ℝ) + (39950000000007393/8192000000000000)) / 2 = 79850000000014787/16384000000000000 by norm_num]
  rw [show (186:ℕ) = 185 + 1 by norm_num]
  rw [stepL 185 (79850000000014787/16384000000000000) (39950000000007393/8192000000000000) (by norm_num) (by norm_num) (by norm_num)
    (by rw [not_lt, abs_of_pos (show (0:ℝ) < ((79850000000014787/16384000000000000) + (39950000000007393/8192000000000000)) / 2 by norm_num)]; norm_num)]
  rw [show (((79850000000014787/16384000000000000) : ℝ) + (39950000000007393/8192000000000000)) / 2 = 159750000000029573/32768000000000000 by norm_num]
  rw [show (185:ℕ) = 184 + 1 by norm_num]
  rw [stepR 184 (79850000000014787/16384000000000000) (159750000000029573/32768000000000000) (by norm_num) (by norm_num) (by norm_num) (by norm_num)
    (by rw [not_lt, abs_of_pos (show (0:ℝ) < ((79850000000014787/16384000000000000) + (159750000000029573/32768000000000000)) / 2 by norm_num)]; norm_num)]
  rw [show (((79850000000014787/16384000000000000) : ℝ) + (159750000000029573/32768000000000000)) / 2 = 319450000000059147/65536000000000000 by norm_num]
  rw [show (184:ℕ) = 183 + 1 by norm_num]
  rw [stepR 183 (319450000000059147/65536000000000000) (159750000000029573/32768000000000000) (by norm_num) (by norm_num) (by norm_num) (by norm_num)
    (by rw [not_lt, abs_of_pos (show (0:ℝ) < ((319450000000059147/65536000000000000) + (159750000000029573/32768000000000000)) / 2 by norm_num)]; norm_num)]
  rw [show (((319450000000059147/65536000000000000) : ℝ) + (159750000000029573/32768000000000000)) / 2 = 638950000000118293/131072000000000000 by norm_num]
  rw [show (183:ℕ) = 182 + 1 by norm_num]
  rw [stepR 182 (638950000000118293/131072000000000000) (159750000000029573/32768000000000000) (by norm_num) (by norm_num) (by norm_num) (by norm_num)
    (by rw [not_lt, abs_of_pos (show (0:ℝ) < ((638950000000118293/131072000000000000) + (159750000000029573/32768000000000000)) / 2 by norm_num)]; norm_num)]
  rw [show (((638950000000118293/131072000000000000) : ℝ) + (159750000000029573/32768000000000000)) / 2 = 255590000000047317/52428800000000000 by norm_num]
  rw [show (182:ℕ) = 181 + 1 by norm_num]
  rw [stepL 181 (255590000000047317/52428800000000000) (159750000000029573/32768000000000000) (by norm_num) (by norm_num) (by norm_num)
    (by rw [not_lt, abs_of_pos (show (0:ℝ) < ((255590000000047317/52428800000000000) + (159750000000029573/32768000000000000)) / 2 by norm_num)]; norm_num)]
  rw [show (((255590000000047317/52428800000000000) : ℝ) + (159750000000029573/32768000000000000)) / 2 = 2555950000000473169/524288000000000000 by norm_num]
  rw [show (181:ℕ) = 180 + 1 by norm_num]
  rw [stepL 180 (255590000000047317/52428800000000000) (2555950000000473169/524288000000000000) (by norm_num) (by norm_num) (by norm_num)
    (by rw [not_lt, abs_of_pos (show (0:ℝ) < ((255590000000047317/52428800000000000) + (2555950000000473169/524288000000000000)) / 2 by norm_num)]; norm_num)]
  rw [show (((255590000000047317/52428800000000000) : ℝ) + (2555950000000473169/524288000000000000)) / 2 = 5111850000000946339/1048576000000000000 by norm_num]
  rw [show (180:ℕ) = 179 + 1 by norm_num]
  rw [stepL 179 (255590000000047317/52428800000000000) (5111850000000946339/1048576000000000000) (by norm_num) (by norm_num) (by norm_num)
    (by rw [not_lt, abs_of_pos (show (0:ℝ) < ((255590000000047317/52428800000000000) + (5111850000000946339/1048576000000000000)) / 2 by norm_num)]; norm_num)]
  rw [show (((255590000000047317/52428800000000000) : ℝ) + (5111850000000946339/1048576000000000000)) / 2 = 10223650000001892679/2097152000000000000 by norm_num]
  rw [show (179:ℕ) = 178 + 1 by norm_num]
  rw [stepL 178 (255590000000047317/52428800000000000) (10223650000001892679/2097152000000000000) (by norm_num) (by norm_num) (by norm_num)
    (by rw [not_lt, abs_of_pos (show (0:ℝ) < ((255590000000047317/52428800000000000) + (10223650000001892679/2097152000000000000)) / 2 by norm_num)]; norm_num)]
  rw [show (((255590000000047317/52428800000000000) : ℝ) + (10223650000001892679/2097152000000000000)) / 2 = 20447250000003785359/4194304000000000000 by norm_num]
  rw [show (178:ℕ) = 177 + 1 by norm_num]
  rw [stepR 177 (255590000000047317/52428800000000000) (20447250000003785359/4194304000000000000) (by norm_num) (by norm_num) (by norm_num) (by norm_num)
    (by rw [not_lt, abs_of_pos (show (0:ℝ) < ((255590000000047317/52428800000000000) + (20447250000003785359/4194304000000000000)) / 2 by norm_num)]; norm_num)]
  rw [show (((255590000000047317/52428800000000000) : ℝ) + (20447250000003785359/4194304000000000000)) / 2 = 40894450000007570719/8388608000000000000 by norm_num]
  rw [show (177:ℕ) = 176 + 1 by norm_num]
  rw [stepL 176 (40894450000007570719/8388608000000000000) (20447250000003785359/4194304000000000000) (by norm_num) (by norm_num) (by norm_num)
    (by rw [not_lt, abs_of_pos (show (0:ℝ) < ((40894450000007570719/8388608000000000000) + (20447250000003785359/4194304000000000000)) / 2 by norm_num)]; norm_num)]
  rw [show (((40894450000007570719/8388608000000000000) : ℝ) + (20447250000003785359/4194304000000000000)) / 2 = 81788950000015141437/16777216000000000000 by norm_num]
  rw [show (176:ℕ) = 175 + 1 by norm_num]
  rw [stepR 175 (40894450000007570719/8388608000000000000) (81788950000015141437/16777216000000000000) (by norm_num) (by norm_num) (by norm_num) (by norm_num)
    (by rw [not_lt, abs_of_pos (show (0:ℝ) < ((40894450000007570719/8388608000000000000) + (81788950000015141437/16777216000000000000)) / 2 by norm_num)]; norm_num)]
  rw [show (((40894450000007570719/8388608000000000000) : ℝ) + (81788950000015141437/16777216000000000000)) / 2 = 1308622800000242263/268435456000000000 by norm_num]
  rw [show (175:ℕ) = 174 + 1 by norm_num]
  rw [stepL 174 (1308622800000242263/268435456000000000) (81788950000015141437/16777216000000000000) (by norm_num) (by norm_num) (by norm_num)
    (by rw [not_lt, abs_of_pos (show (0:ℝ) < ((1308622800000242263/268435456000000000) + (81788950000015141437/16777216000000000000)) / 2 by norm_num)]; norm_num)]
  rw [show (((1308622800000242263/268435456000000000) : ℝ) + (81788950000015141437/16777216000000000000)) / 2 = 327155750000060565749/67108864000000000000 by norm_num]
  rw [show (174:ℕ) = 173 + 1 by norm_num]
  rw [stepL 173 (1308622800000242263/268435456000000000) (327155750000060565749/67108864000000000000) (by norm_num) (by norm_num) (by norm_num)
    (by rw [not_lt, abs_of_pos (show (0:ℝ) < ((1308622800000242263/268435456000000000) + (327155750000060565749/67108864000000000000)) / 2 by norm_num)]; norm_num)]
  rw [show (((1308622800000242263/268435456000000000) : ℝ) + (327155750000060565749/67108864000000000000)) / 2 = 654311450000121131499/134217728000000000000 by norm_num]
  rw [show (173:ℕ) = 172 + 1 by norm_num]
  rw [stepL 172 (1308622800000242263/268435456000000000) (654311450000121131499/134217728000000000000) (by norm_num) (by norm_num) (by norm_num)
    (by rw [not_lt, abs_of_pos (show (0:ℝ) < ((1308622800000242263/268435456000000000) + (654311450000121131499/134217728000000000000)) / 2 by norm_num)]; norm_num)]
  rw [show (((1308622800000242263/268435456000000000) : ℝ) + (654311450000121131499/134217728000000000000)) / 2 = 1308622850000242262999/268435456000000000000 by norm_num]
  rw [show (172:ℕ) = 171 + 1 by norm_num]
  rw [stepR 171 (1308622800000242263/268435456000000000) (1308622850000242262999/268435456000000000000) (by norm_num) (by norm_num) (by norm_num) (by norm_num)
    (by rw [not_lt, abs_of_pos (show (0:ℝ) < ((1308622800000242263/268435456000000000) + (1308622850000242262999/268435456000000000000)) / 2 by norm_num)]; norm_num)]
  rw [show (((1308622800000242263/268435456000000000) : ℝ) + (1308622850000242262999/268435456000000000000)) / 2 = 2617245650000484525999/536870912000000000000 by norm_num]
  rw [show (171:ℕ) = 170 + 1 by norm_num]
  rw [stepR 170 (2617245650000484525999/536870912000000000000) (1308622850000242262999/268435456000000000000) (by norm_num) (by norm_num) (by norm_num) (by norm_num)
    (by rw [not_lt, abs_of_pos (show (0:ℝ) < ((2617245650000484525999/536870912000000000000) + (1308622850000242262999/268435456000000000000)) / 2 by norm_num)]; norm_num)]
  rw [show (((2617245650000484525999/536870912000000000000) : ℝ) + (1308622850000242262999/268435456000000000000)) / 2 = 5234491350000969051997/1073741824000000000000 by norm_num]
  rw [show (170:ℕ) = 169 + 1 by norm_num]
  rw [stepR 169 (5234491350000969051997/1073741824000000000000) (1308622850000242262999/268435456000000000000) (by norm_num) (by norm_num) (by norm_num) (by norm_num)
    (by rw [not_lt, abs_of_pos (show (0:ℝ) < ((5234491350000969051997/1073741824000000000000) + (1308622850000242262999/268435456000000000000)) / 2 by norm_num)]; norm_num)]
  rw [show (((5234491350000969051997/1073741824000000000000) : ℝ) + (1308622850000242262999/268435456000000000000)) / 2 = 10468982750001938103993/2147483648000000000000 by norm_num]
  rw [show (169:ℕ) = 168 + 1 by norm_num]
  rw [stepR 168 (10468982750001938103993/2147483648000000000000) (1308622850000242262999/268435456000000000000) (by norm_num) (by norm_num) (by norm_num) (by norm_num)
    (by rw [not_lt, abs_of_pos (show (0:ℝ) < ((10468982750001938103993/2147483648000000000000) + (1308622850000242262999/268435456000000000000)) / 2 by norm_num)]; norm_num)]
  rw [show (((10468982750001938103993/2147483648000000000000) : ℝ) + (1308622850000242262999/268435456000000000000)) / 2 = 4187593110000775241597/858993459200000000000 by norm_num]
  rw [show (168:ℕ) = 167 + 1 by norm_num]
  rw [stepL 167 (4187593110000775241597/858993459200000000000) (1308622850000242262999/268435456000000000000) (by norm_num) (by norm_num) (by norm_num)
    (by rw [not_lt, abs_of_pos (show (0:ℝ) < ((4187593110000775241597/858993459200000000000) + (1308622850000242262999/268435456000000000000)) / 2 by norm_num)]; norm_num)]
  rw [show (((4187593110000775241597/858993459200000000000) : ℝ) + (1308622850000242262999/268435456000000000000)) / 2 = 41875931150007752415969/8589934592000000000000 by norm_num]
  rw [show (167:ℕ) = 166 + 1 by norm_num]
  rw [stepR 166 (4187593110000775241597/858993459200000000000) (41875931150007752415969/8589934592000000000000) (by norm_num) (by norm_num) (by norm_num) (by norm_num)
    (by rw [not_lt, abs_of_pos (show (0:ℝ) < ((4187593110000775241597/858993459200000000000) + (41875931150007752415969/8589934592000000000000)) / 2 by norm_num)]; norm_num)]
  rw [show (((4187593110000775241597/858993459200000000000) : ℝ) + (41875931150007752415969/8589934592000000000000)) / 2 = 83751862250015504831939/17179869184000000000000 by norm_num]
  rw [show (166:ℕ) = 165 + 1 by norm_num]
  rw [stepL 165 (83751862250015504831939/17179869184000000000000) (41875931150007752415969/8589934592000000000000) (by norm_num) (by norm_num) (by norm_num)
    (by rw [not_lt, abs_of_pos (show (0:ℝ) < ((83751862250015504831939/17179869184000000000000) + (41875931150007752415969/8589934592000000000000)) / 2 by norm_num)]; norm_num)]
  rw [show (((83751862250015504831939/17179869184000000000000) : ℝ) + (41875931150007752415969/8589934592000000000000)) / 2 = 167503724550031009663877/34359738368000000000000 by norm_num]
  rw [show (165:ℕ) = 164 + 1 by norm_num]
  rw [stepR 164 (83751862250015504831939/17179869184000000000000) (167503724550031009663877/34359738368000000000000) (by norm_num) (by norm_num) (by norm_num) (by norm_num)
    (by rw [not_lt, abs_of_pos (show (0:ℝ) < ((83751862250015504831939/17179869184000000000000) + (167503724550031009663877/34359738368000000000000)) / 2 by norm_num)]; norm_num)]
  rw [show (((83751862250015504831939/17179869184000000000000) : ℝ) + (167503724550031009663877/34359738368000000000000)) / 2 = 67001489810012403865551/13743895347200000000000 by norm_num]
  rw [show (164:ℕ) = 163 + 1 by norm_num]
  rw [stepR 163 (67001489810012403865551/13743895347200000000000) (167503724550031009663877/34359738368000000000000) (by norm_num) (by norm_num) (by norm_num) (by norm_num)
    (by rw [not_lt, abs_of_pos (show (0:ℝ) < ((67001489810012403865551/13743895347200000000000) + (167503724550031009663877/34359738368000000000000)) / 2 by norm_num)]; norm_num)]
  rw [show (((67001489810012403865551/13743895347200000000000) : ℝ) + (167503724550031009663877/34359738368000000000000)) / 2 = 670014898150124038655509/137438953472000000000000 by norm_num]
  rw [show (163:ℕ) = 162 + 1 by norm_num]
  rw [stepR 162 (670014898150124038655509/137438953472000000000000) (167503724550031009663877/34359738368000000000000) (by norm_num) (by norm_num) (by norm_num) (by norm_num)
    (by rw [not_lt, abs_of_pos (show (0:ℝ) < ((670014898150124038655509/137438953472000000000000) + (167503724550031009663877/34359738368000000000000)) / 2 by norm_num)]; norm_num)]
  rw [show (((670014898150124038655509/137438953472000000000000) : ℝ) + (167503724550031009663877/34359738368000000000000)) / 2 = 1340029796350248077311017/274877906944000000000000 by norm_num]
  rw [show (162:ℕ) = 161 + 1 by norm_num]
  rw [stepL 161 (1340029796350248077311017/274877906944000000000000) (167503724550031009663877/34359738368000000000000) (by norm_num) (by norm_num) (by norm_num)
    (by rw [not_lt, abs_of_pos (show (0:ℝ) < ((1340029796350248077311017/274877906944000000000000) + (167503724550031009663877/34359738368000000000000)) / 2 by norm_num)]; norm_num)]
  rw [show (((1340029796350248077311017/274877906944000000000000) : ℝ) + (167503724550031009663877/34359738368000000000000)) / 2 = 2680059592750496154622033/549755813888000000000000 by norm_num]
  rw [show (161:ℕ) = 160 + 1 by norm_num]
  rw [stepL 160 (1340029796350248077311017/274877906944000000000000) (2680059592750496154622033/549755813888000000000000) (by norm_num) (by norm_num) (by norm_num)
    (by rw [not_lt, abs_of_pos (show (0:ℝ) < ((1340029796350248077311017/274877906944000000000000) + (2680059592750496154622033/549755813888000000000000)) / 2 by norm_num)]; norm_num)]
  rw [show (((1340029796350248077311017/274877906944000000000000) : ℝ) + (2680059592750496154622033/549755813888000000000000)) / 2 = 5360119185450992309244067/1099511627776000000000000 by norm_num]
  rw [show (160:ℕ) = 159 + 1 by norm_num]
  rw [stepL 159 (1340029796350248077311017/274877906944000000000000) (5360119185450992309244067/1099511627776000000000000) (by norm_num) (by norm_num) (by norm_num)
    (by rw [not_lt, abs_of_pos (show (0:ℝ) < ((1340029796350248077311017/274877906944000000000000) + (5360119185450992309244067/1099511627776000000000000)) / 2 by norm_num)]; norm_num)]
  rw [show (((1340029796350248077311017/274877906944000000000000) : ℝ) + (5360119185450992309244067/1099511627776000000000000)) / 2 = 2144047674170396923697627/439804651110400000000000 by norm_num]
  rw [show (159:ℕ) = 158 + 1 by norm_num]
  rw [stepL 158 (1340029796350248077311017/274877906944000000000000) (2144047674170396923697627/439804651110400000000000) (by norm_num) (by norm_num) (by norm_num)
    (by rw [not_lt, abs_of_pos (show (0:ℝ) < ((1340029796350248077311017/274877906944000000000000) + (2144047674170396923697627/439804651110400000000000)) / 2 by norm_num)]; norm_num)]
  rw [show (((1340029796350248077311017/274877906944000000000000) : ℝ) + (2144047674170396923697627/439804651110400000000000)) / 2 = 21440476741653969236976271/4398046511104000000000000 by norm_num]
  rw [show (158:ℕ) = 157 + 1 by norm_num]
  rw [stepR 157 (1340029796350248077311017/274877906944000000000000) (21440476741653969236976271/4398046511104000000000000) (by norm_num) (by norm_num) (by norm_num) (by norm_num)
    (by rw [not_lt, abs_of_pos (show (0:ℝ) < ((1340029796350248077311017/274877906944000000000000) + (21440476741653969236976271/4398046511104000000000000)) / 2 by norm_num)]; norm_num)]
  rw [show (((1340029796350248077311017/274877906944000000000000) : ℝ) + (21440476741653969236976271/4398046511104000000000000)) / 2 = 42880953483257938473952543/8796093022208000000000000 by norm_num]
  rw [bisect_stop _ (1/10^12) (1/10^12) 157 (42880953483257938473952543/8796093022208000000000000) (21440476741653969236976271/4398046511104000000000000)
    (by rw [abs_of_pos (show (0:ℝ) < ((42880953483257938473952543/8796093022208000000000000) + (21440476741653969236976271/4398046511104000000000000)) / 2 by norm_num)]; norm_num)]
  rw [show (((42880953483257938473952543/8796093022208000000000000) : ℝ) + (21440476741653969236976271/4398046511104000000000000)) / 2 = 17152381393313175389581017/3518437208883200000000000 by norm_num]

/-- The concrete round-trip at `σ = 39/8` with the default configuration
converges to the explicit value of `bisect_trace_roundtrip`. -/
theorem iv_roundtrip_value_at_4875 :
    iv_call_v2 (bs_call 1 1 (39/8) 1 0) 1 1 1 0 0 (1/10^12) 50 2000
      (1/10^12) (1/10^12) 200 = Except.ok (17152381393313175389581017/3518437208883200000000000) := by
  have hmono := bs_call_err_strictMono 1 1 1 0 (bs_call 1 1 (39/8) 1 0)
    one_pos one_pos one_pos
  have hflo : bs_call 1 1 (1/10^12) 1 0 - bs_call 1 1 (39/8) 1 0 ≤ 0 := by
    have h := hmono (1/10^12) (39/8) (by norm_num) (by norm_num)
    rw [sub_self] at h
    linarith
  have hfhi : 0 ≤ bs_call 1 1 50 1 0 - bs_call 1 1 (39/8) 1 0 := by
    have h := hmono (39/8) 50 (by norm_num) (by norm_num)
    rw [sub_self] at h
    linarith
  rw [iv_call_v2_to_bisect (bs_call 1 1 (39/8) 1 0) 1 1 1 0 0 (1/10^12) 50 2000
    (1/10^12) (1/10^12) 200 hflo hfhi]
  rw [bisect_trace_roundtrip]

/-- C6 (counterexample): the round-trip claim fails in two ways on the code
with the default configuration.  For `σ = 10^-13 ∈ (0, 5]` (below
`initial_vol_lo = 10^-12`) the objective has the same sign at both bracket
endpoints, expansion cannot help, and the solver raises the bracket
`ValueError` instead of converging.  And for `σ = 39/8 ∈ (0, 5]` the solver
does converge but the returned volatility differs from `σ` by about
`2.15·10^-12`, more than `abs_tol = 10^-12`: the spec's stopping rule
`abs_tol + rel_tol·|σ|` does not guarantee a bare-`abs_tol` result. -/
theorem roundtrip_range_and_tolerance_cex :
    (¬ ∃ x : ℝ, iv_call_v2 (bs_call 1 1 (1/10^13) 1 0) 1 1 1 0 0 (1/10^12) 50 2000
        (1/10^12) (1/10^12) 200 = Except.ok x)
    ∧ iv_call_v2 (bs_call 1 1 (39/8) 1 0) 1 1 1 0 0 (1/10^12) 50 2000
        (1/10^12) (1/10^12) 200 = Except.ok (17152381393313175389581017/3518437208883200000000000)
    ∧ ¬ (|(17152381393313175389581017/3518437208883200000000000 : ℝ) - 39/8| ≤ 1/10^12) := by
  refine ⟨iv_below_vol_lo_no_ok, iv_roundtrip_value_at_4875, ?_⟩
  rw [abs_of_pos (show (0:ℝ) < (17152381393313175389581017/3518437208883200000000000 : ℝ) - 39/8 by norm_num)]
  norm_num
